import Mathlib

/-!
Verification of the deterministic decision engine of the real-estate lead
triage system (session state and conflict resolution, quality scoring and
gating, lead temperature and SLA policy, and the agent router).

The definitions below are a shallow embedding of the Python modules
`app/agent/state.py`, `app/agent/quality.py`, `app/agent/quality_gate.py`,
`app/agent/scoring.py`, `app/agent/sla.py`, `app/agent/rules.py` and
`app/agent/router.py`.  Python dictionaries are modelled as insertion-ordered
association lists, dynamic values as the `Value` type, wall-clock stamps as a
`now : Nat` field of the session state, and attributes that the Python code
assigns dynamically (never declared on the `SessionState` dataclass) as
`Option`-typed fields read through `Except`, so that an `AttributeError` is an
explicit error value.  Console logging and file persistence, which do not
affect any returned value, are dropped.
-/

/-- A dynamic (Python) value stored in a session field.  The modules verified
here only ever store strings, integers and booleans in these slots. -/
inductive Value where
  | str (s : String)
  | int (n : Int)
  | bool (b : Bool)
deriving DecidableEq, Repr

/-- Python truthiness of an optional value: `None`, `""`, `0` and `False` are
falsy, everything else is truthy. -/
def truthy : Option Value → Bool
  | none => false
  | some (Value.str s) => s != ""
  | some (Value.int n) => n != 0
  | some (Value.bool b) => b

/-- Python `str()` of a value (only the cases that can be stored). -/
def valueStr : Value → String
  | Value.str s => s
  | Value.int n => toString n
  | Value.bool b => if b then "True" else "False"

/-- The string payload of a value, when it is a string.  Used where the Python
code applies string methods to a field that normalization only ever fills with
a string (a non-string there would crash the Python code). -/
def asStr : Option Value → Option String
  | some (Value.str s) => some s
  | _ => none

/-- The integer payload of a value, when it is an integer. -/
def asInt : Option Value → Option Int
  | some (Value.int n) => some n
  | _ => none

/-- ASCII lowering of a string, modelling Python `str.lower` on the ASCII
range (the inputs the code compares are ASCII after accent folding).  All
string helpers here are structurally recursive over the character list so
that the kernel can evaluate them in proofs. -/
def pyLower (s : String) : String := String.mk (s.toList.map Char.toLower)

/-- Is `pat` a prefix of `l`. -/
def listPrefix : List Char → List Char → Bool
  | [], _ => true
  | _ :: _, [] => false
  | a :: as, b :: bs => a = b && listPrefix as bs

/-- Occurrence search for `containsAux pat l`: does `pat` occur in `l`. -/
def containsAux (pat : List Char) : List Char → Bool
  | [] => listPrefix pat []
  | c :: t => listPrefix pat (c :: t) || containsAux pat t

/-- Left-to-right non-overlapping replacement with a step-count fuel (the fuel
is the input length, which bounds the number of steps when the pattern is
non-empty). -/
def replaceAux (pat rep : List Char) : Nat → List Char → List Char
  | _, [] => []
  | 0, l => l
  | n + 1, c :: t =>
      if pat ≠ [] ∧ listPrefix pat (c :: t) then
        rep ++ replaceAux pat rep n ((c :: t).drop pat.length)
      else c :: replaceAux pat rep n t

/-- Python `s.replace(pat, rep)` (never called with an empty pattern by this
code base, so that case returns the input unchanged). -/
def pyReplace (s pat rep : String) : String :=
  if pat = "" then s
  else String.mk (replaceAux pat.toList rep.toList s.toList.length s.toList)

/-- The whitespace set of Python `str.strip` restricted to the ASCII
whitespace these utterances can carry. -/
def isSpaceChar (c : Char) : Bool := c = ' ' ∨ c = '\t' ∨ c = '\n' ∨ c = '\r'

/-- Python `s.strip()`. -/
def pyTrim (s : String) : String :=
  String.mk (((s.toList.dropWhile isSpaceChar).reverse.dropWhile isSpaceChar).reverse)

/-- Python `s.startswith(p)`. -/
def pyStartsWith (s p : String) : Bool := listPrefix p.toList s.toList

/-- Python `s.endswith(p)`. -/
def pyEndsWith (s p : String) : Bool := listPrefix p.toList.reverse s.toList.reverse

/-- Python `s[:-n]`. -/
def pyDropRight (s : String) (n : Nat) : String :=
  String.mk (s.toList.take (s.toList.length - n))

/-- Splitting a character list on one separator character. -/
def splitCharAux (sep : Char) (acc : List Char) : List Char → List (List Char)
  | [] => [acc.reverse]
  | x :: t =>
      if x = sep then acc.reverse :: splitCharAux sep [] t
      else splitCharAux sep (x :: acc) t

/-- Accent folding of one character, modelling
`unicodedata.normalize("NFKD", txt).encode("ascii", "ignore")` for the Latin
accents that occur in the source's vocabulary; other non-ASCII characters are
dropped, as the ASCII encode with `ignore` does. -/
def foldChar (c : Char) : Option Char :=
  if c.toNat < 128 then some c
  else if c = 'á' ∨ c = 'à' ∨ c = 'â' ∨ c = 'ã' ∨ c = 'ä' then some 'a'
  else if c = 'é' ∨ c = 'è' ∨ c = 'ê' ∨ c = 'ë' then some 'e'
  else if c = 'í' ∨ c = 'ì' ∨ c = 'î' then some 'i'
  else if c = 'ó' ∨ c = 'ò' ∨ c = 'ô' ∨ c = 'õ' ∨ c = 'ö' then some 'o'
  else if c = 'ú' ∨ c = 'ù' ∨ c = 'û' ∨ c = 'ü' then some 'u'
  else if c = 'ç' then some 'c'
  else none

/-- Accent folding of a string (see `foldChar`). -/
def asciiFold (s : String) : String := String.mk (s.toList.filterMap foldChar)

/-- Python `sub in s`. -/
def pyContains (s sub : String) : Bool := containsAux sub.toList s.toList

/-- Digits of a character list as a natural number (the list is checked to be
all digits before this is used). -/
def digitsToNat (l : List Char) : Nat :=
  l.foldl (fun acc c => acc * 10 + (c.toNat - 48)) 0

/-- Model of Python `float(txt)` on the strings `_normalize_numeric` can
produce: an optional sign followed by digits with at most one decimal point.
Exponent forms and underscores, which no currency utterance produces, parse to
`none` here.  The result is exact rational arithmetic in place of binary
floating point. -/
def pyFloat (s : String) : Option Rat :=
  let l := s.toList
  let (sign, body) :=
    if listPrefix ['-'] l then ((-1 : Int), l.drop 1)
    else if listPrefix ['+'] l then ((1 : Int), l.drop 1)
    else ((1 : Int), l)
  match splitCharAux '.' [] body with
  | [a] =>
      if a.length > 0 && a.all Char.isDigit then
        some ((sign * (digitsToNat a : Int) : Int) : Rat)
      else none
  | [a, b] =>
      if (a.length > 0 || b.length > 0) && a.all Char.isDigit
          && b.all Char.isDigit then
        some ((sign : Rat) *
          ((digitsToNat a : Rat) + (digitsToNat b : Rat) / ((10 : Rat) ^ b.length)))
      else none
  | _ => none

/-- Python `int()` truncation of a rational toward zero. -/
def ratTrunc (q : Rat) : Int := if q < 0 then -((-q).floor) else q.floor

/-- One stored triage field: `{"value": ..., "status": ..., "source": ...,
"updated_at": ...}` as written by `SessionState.set_criterion`. -/
structure Entry where
  value : Option Value
  status : String
  source : String
  updatedAt : Nat
deriving DecidableEq, Repr

/-- Insertion-ordered dictionary write: replace the first binding of the key
in place, or append a new binding, as a Python dict assignment does. -/
def dictSet {α : Type} : List (String × α) → String → α → List (String × α)
  | [], k, v => [(k, v)]
  | (k', v') :: rest, k, v =>
      if k' = k then (k, v) :: rest else (k', v') :: dictSet rest k v

/-- The `LeadCriteria` dataclass.  Every slot is dynamically typed in Python,
so each is an `Option Value` here.  `leisure_features` (an optional list, never
touched by the verified operations) is modelled as an always-`none` slot. -/
structure LeadCriteria where
  city : Option Value := none
  neighborhood : Option Value := none
  micro_location : Option Value := none
  property_type : Option Value := none
  bedrooms : Option Value := none
  suites : Option Value := none
  parking : Option Value := none
  budget : Option Value := none
  budget_min : Option Value := none
  furnished : Option Value := none
  pet : Option Value := none
  urgency : Option Value := none
  financing : Option Value := none
  timeline : Option Value := none
  condo_max : Option Value := none
  floor_pref : Option Value := none
  sun_pref : Option Value := none
  view_pref : Option Value := none
  leisure_features : Option Value := none
deriving DecidableEq, Repr

/-- `hasattr(criteria, key)`: the dataclass fields plus the `budget_max`
property. -/
def criteriaHasAttr (key : String) : Bool :=
  key ∈ ["city", "neighborhood", "micro_location", "property_type", "bedrooms",
    "suites", "parking", "budget", "budget_min", "furnished", "pet", "urgency",
    "financing", "timeline", "condo_max", "floor_pref", "sun_pref", "view_pref",
    "leisure_features", "budget_max"]

/-- `getattr(criteria, key)`; the `budget_max` property reads `budget`. -/
def criteriaGet (c : LeadCriteria) : String → Option Value
  | "city" => c.city
  | "neighborhood" => c.neighborhood
  | "micro_location" => c.micro_location
  | "property_type" => c.property_type
  | "bedrooms" => c.bedrooms
  | "suites" => c.suites
  | "parking" => c.parking
  | "budget" => c.budget
  | "budget_min" => c.budget_min
  | "furnished" => c.furnished
  | "pet" => c.pet
  | "urgency" => c.urgency
  | "financing" => c.financing
  | "timeline" => c.timeline
  | "condo_max" => c.condo_max
  | "floor_pref" => c.floor_pref
  | "sun_pref" => c.sun_pref
  | "view_pref" => c.view_pref
  | "leisure_features" => c.leisure_features
  | "budget_max" => c.budget
  | _ => none

/-- `setattr(criteria, key, v)`; setting the `budget_max` property writes
`budget`.  Unknown keys leave the record unchanged (the caller guards with
`criteriaHasAttr`). -/
def criteriaSet (c : LeadCriteria) (key : String) (v : Option Value) : LeadCriteria :=
  if key = "city" then { c with city := v }
  else if key = "neighborhood" then { c with neighborhood := v }
  else if key = "micro_location" then { c with micro_location := v }
  else if key = "property_type" then { c with property_type := v }
  else if key = "bedrooms" then { c with bedrooms := v }
  else if key = "suites" then { c with suites := v }
  else if key = "parking" then { c with parking := v }
  else if key = "budget" then { c with budget := v }
  else if key = "budget_min" then { c with budget_min := v }
  else if key = "furnished" then { c with furnished := v }
  else if key = "pet" then { c with pet := v }
  else if key = "urgency" then { c with urgency := v }
  else if key = "financing" then { c with financing := v }
  else if key = "timeline" then { c with timeline := v }
  else if key = "condo_max" then { c with condo_max := v }
  else if key = "floor_pref" then { c with floor_pref := v }
  else if key = "sun_pref" then { c with sun_pref := v }
  else if key = "view_pref" then { c with view_pref := v }
  else if key = "leisure_features" then { c with leisure_features := v }
  else if key = "budget_max" then { c with budget := v }
  else c

/-- The `LeadScore` dataclass. -/
structure LeadScore where
  temperature : String := "cold"
  score : Int := 0
  reasons : List String := []
deriving DecidableEq, Repr

/-- The `lead_profile` mapping `{"name": ..., "phone": ..., "email": ...}`. -/
structure LeadProfile where
  name : Option Value := none
  phone : Option Value := none
  email : Option Value := none
deriving DecidableEq, Repr

/-- One conversation history record `{"role": ..., "text": ...}`. -/
structure HistEntry where
  role : String
  text : String
deriving DecidableEq, Repr

/-- The `SessionState` dataclass restricted to the fields the verified
operations read or write, plus the four attributes the Python code accesses
on it without ever declaring them (`quality_gate_turns`, `field_refusals`,
`hot_lead_emitted`, `intent_stage`).  Those four are `Option`-typed: a fresh
state has `none` (the attribute does not exist, and reading it raises
`AttributeError`), and dynamic assignment makes it `some`.  `now` models
`time.time()` for the `updated_at` stamps. -/
structure SessionState where
  session_id : String
  intent : Option Value := none
  criteria : LeadCriteria := {}
  criteria_status : List (String × String) := []
  triage_fields : List (String × Entry) := []
  lead_profile : LeadProfile := {}
  lead_score : LeadScore := {}
  asked_questions : List String := []
  last_question_key : Option String := none
  completed : Bool := false
  history : List HistEntry := []
  now : Nat := 0
  quality_gate_turns : Option Int := none
  field_refusals : Option (List (String × Int)) := none
  hot_lead_emitted : Option Bool := none
  intent_stage : Option Value := none
deriving DecidableEq, Repr

/-- A freshly created session state, as `InMemoryStore.get` produces for a new
session id: `SessionState(session_id=session_id)` with every default. -/
def freshState (sid : String) : SessionState := { session_id := sid }

/-- `SessionState._normalize_numeric`.  Python `bool` is an `int` subtype, so
booleans take the `isinstance(value, (int, float))` branch.  Binary floating
point is replaced by exact rational arithmetic with `int()` truncation. -/
def _normalize_numeric (value : Option Value) : Option Int :=
  match value with
  | none => none
  | some (Value.int n) => some n
  | some (Value.bool b) => some (if b then 1 else 0)
  | some (Value.str s) =>
      let txt := asciiFold (pyTrim (pyLower s))
      let txt := pyReplace (pyReplace txt "r$" "") " " ""
      let txt := pyReplace txt "." ""
      if pyContains txt "milhao" || pyContains txt "milhoes" || pyContains txt "mi" then
        let t := pyReplace (pyReplace (pyReplace txt "milhao" "") "milhoes" "") "mi" ""
        (pyFloat (pyReplace t "," ".")).map (fun q => ratTrunc (q * 1000000))
      else if pyEndsWith txt "k" then
        (pyFloat (pyReplace (pyDropRight txt 1) "," ".")).map (fun q => ratTrunc (q * 1000))
      else if pyContains txt "mil" then
        (pyFloat (pyReplace (pyReplace txt "mil" "") "," ".")).map (fun q => ratTrunc (q * 1000))
      else
        (pyFloat (pyReplace txt "," ".")).map ratTrunc

/-- `SessionState._normalize_timeline`. -/
def _normalize_timeline (value : Option Value) : Option String :=
  match value with
  | none => none
  | some v =>
      let lowered := pyLower (valueStr v)
      if pyContains lowered "rapido" || pyContains lowered "rápido"
          || pyContains lowered "asap" || pyContains lowered "o mais rapido" then
        some "3m"
      else if pyContains lowered "30" || pyContains lowered "imedi"
          || pyContains lowered "agora" then
        some "30d"
      else if pyContains lowered "3" && pyContains lowered "mes" then some "3m"
      else if pyContains lowered "6" && pyContains lowered "mes" then some "6m"
      else if pyContains lowered "12" || pyContains lowered "ano" then some "12m"
      else if pyContains lowered "flex" || pyContains lowered "sem pressa" then
        some "flexivel"
      else none

/-- `SessionState._normalize_micro_location`. -/
def _normalize_micro_location (value : Option Value) : Option Value :=
  match value with
  | none => none
  | some v =>
      let lowered := pyLower (valueStr v)
      if pyContains lowered "beira" || pyContains lowered "praia" then
        some (Value.str "beira-mar (praia)")
      else if pyContains lowered "1" && pyContains lowered "quadra" then
        some (Value.str "1_quadra_da_praia")
      else if (pyContains lowered "2" || pyContains lowered "3") && pyContains lowered "quadra" then
        some (Value.str "2-3_quadras_da_praia")
      else if pyContains lowered "orla" || pyContains lowered "praia" then
        some (Value.str "orla (praia)")
      else
        match v with
        | Value.str s => some (Value.str s)
        | other => some (Value.str (valueStr other))

/-- Models `SessionState._normalize_boolean` (true/false word lists with the
text lowered and stripped; anything else is `None`). -/
def _normalize_bool (value : Option Value) : Option Bool :=
  match value with
  | some (Value.bool b) => some b
  | none => none
  | some v =>
      let lowered := pyLower (pyTrim (valueStr v))
      if lowered ∈ ["sim", "s", "pode", "claro", "ok", "yes", "y", "positivo"] then
        some true
      else if lowered ∈ ["nao", "não", "n", "negativo", "nunca"] then some false
      else none

/-- `SessionState._apply_alias` (the value is returned unchanged by the
Python code, so only the key mapping is modelled). -/
def _apply_alias (key : String) : String :=
  if key = "operation" then "intent"
  else if key = "budget_max" then "budget"
  else if key = "budget" then "budget"
  else if key = "budget_min" then "budget_min"
  else if key = "bedrooms_min" then "bedrooms"
  else if key = "suites_min" then "suites"
  else if key = "parking_min" then "parking"
  else if key = "timeline_bucket" then "timeline"
  else if key = "city_confirm" then "city"
  else key

/-- The shared normalization pipeline of `_normalize_for_field` and
`set_criterion`: type-specific normalization for the (already aliased) key. -/
def normalizeValueForKey (key : String) (value : Option Value) : Option Value :=
  let value :=
    if key ∈ ["budget", "budget_min", "parking", "bedrooms", "suites", "condo_max"] then
      (_normalize_numeric value).map Value.int
    else value
  let value :=
    if key = "timeline" then
      match _normalize_timeline value with
      | some t => some (Value.str t)
      | none => value
    else value
  let value := if key = "micro_location" then _normalize_micro_location value else value
  let value :=
    if key ∈ ["furnished", "pet"] then
      match _normalize_bool value with
      | some b => some (Value.bool b)
      | none => value
    else value
  value

/-- `SessionState._normalize_for_field`: alias resolution followed by
type-specific normalization, without mutating state. -/
def _normalize_for_field (key : String) (value : Option Value) : String × Option Value :=
  let key := _apply_alias key
  (key, normalizeValueForKey key value)

/-- `SessionState.set_criterion`. -/
def set_criterion (st : SessionState) (key : String) (value : Option Value)
    (status : String) (source : String) : SessionState :=
  match value with
  | none => st
  | some _ =>
      let key := _apply_alias key
      let value := normalizeValueForKey key value
      let st :=
        if criteriaHasAttr key ∧ value ≠ none then
          { st with criteria := criteriaSet st.criteria key value,
                    criteria_status := dictSet st.criteria_status key status }
        else st
      let entry : Entry :=
        { value := value, status := status, source := source, updatedAt := st.now }
      { st with triage_fields := dictSet st.triage_fields key entry }

/-- One update payload, as the dict form `{"value": ..., "status": ...,
"source": ...}` with the defaults `status="confirmed"`, `source="llm"` that
`apply_updates` reads with `.get`; a bare (non-dict) payload value is the same
as a dict carrying only that value. -/
structure Update where
  value : Option Value := none
  status : String := "confirmed"
  source : String := "llm"
deriving DecidableEq, Repr

/-- A recorded conflict detail `{"previous": ..., "new": ...}`. -/
structure ConflictDetail where
  previous : Option Value
  new : Option Value
deriving DecidableEq, Repr

/-- The loop body of `SessionState.apply_updates`, threaded over the update
list (Python dict iteration is insertion order).  A `none` payload is the
`payload is None` skip. -/
def apply_updates_go (st : SessionState) (conflicts : List String)
    (cvals : List (String × ConflictDetail)) :
    List (String × Option Update) →
      SessionState × List String × List (String × ConflictDetail)
  | [] => (st, conflicts, cvals)
  | (_, none) :: rest => apply_updates_go st conflicts cvals rest
  | (key, some p) :: rest =>
      if key = "lead_name" ∨ key = "name" then
        let st' :=
          if truthy p.value ∧ ¬truthy st.lead_profile.name then
            { st with lead_profile := { st.lead_profile with name := p.value } }
          else st
        apply_updates_go st' conflicts cvals rest
      else if key = "phone" then
        let st' := if truthy p.value then
          { st with lead_profile := { st.lead_profile with phone := p.value } } else st
        apply_updates_go st' conflicts cvals rest
      else if key = "email" then
        let st' := if truthy p.value then
          { st with lead_profile := { st.lead_profile with email := p.value } } else st
        apply_updates_go st' conflicts cvals rest
      else if key = "intent" ∨ key = "operation" then
        if p.status = "override" ∧ truthy p.value then
          apply_updates_go { st with intent := p.value } conflicts cvals rest
        else if truthy st.intent ∧ truthy p.value ∧ st.intent ≠ p.value ∧
            (st.intent = some (Value.str "comprar") ∨ st.intent = some (Value.str "alugar")) then
          apply_updates_go st (conflicts ++ ["intent"])
            (dictSet cvals "intent" ({ previous := st.intent, new := p.value })) rest
        else if truthy p.value then
          apply_updates_go { st with intent := p.value } conflicts cvals rest
        else
          apply_updates_go st conflicts cvals rest
      else
        let akv := _normalize_for_field key p.value
        let alias_key := akv.1
        let norm_value := akv.2
        let prev := List.lookup alias_key st.triage_fields
        let prev_val : Option Value := match prev with | some e => e.value | none => none
        let prev_status : Option String := match prev with | some e => some e.status | none => none
        if prev_status = some "confirmed" ∧ norm_value ≠ none ∧
            prev_val ≠ none ∧ prev_val ≠ norm_value then
          apply_updates_go st (conflicts ++ [alias_key])
            (dictSet cvals alias_key ({ previous := prev_val, new := norm_value })) rest
        else
          apply_updates_go (set_criterion st alias_key norm_value p.status p.source)
            conflicts cvals rest

/-- `SessionState.apply_updates`: applies extracted updates and returns the
conflicted field names and their `{previous, new}` details. -/
def apply_updates (st : SessionState) (updates : List (String × Option Update)) :
    SessionState × List String × List (String × ConflictDetail) :=
  apply_updates_go st [] [] updates

/-- The message of a Python `AttributeError` for an attribute that was never
assigned on the `SessionState` instance. -/
def attrErr (attr : String) : String := "AttributeError: " ++ attr

/-- `rules.CRITICAL_ORDER`. -/
def CRITICAL_ORDER : List String :=
  ["intent", "city", "neighborhood", "property_type", "bedrooms", "parking",
   "budget", "timeline"]

/-- `rules.PREFERENCE_ORDER`. -/
def PREFERENCE_ORDER : List String :=
  ["micro_location", "lead_name", "budget_min", "condo_max", "floor_pref",
   "sun_pref", "view_pref", "leisure_features", "suites", "payment_type",
   "entry_amount", "furnished", "pet", "area_min"]

/-- `rules._value`: triage field first, then a criteria attribute, then the
lead profile. -/
def rules_value (st : SessionState) (key : String) : Option Value :=
  match List.lookup key st.triage_fields with
  | some e => e.value
  | none =>
      if criteriaHasAttr key then criteriaGet st.criteria key
      else if key = "name" then st.lead_profile.name
      else if key = "phone" then st.lead_profile.phone
      else if key = "email" then st.lead_profile.email
      else none

/-- `rules._status`. -/
def rules_status (st : SessionState) (key : String) : Option String :=
  match List.lookup key st.triage_fields with
  | some e => some e.status
  | none =>
      if key = "intent" then (if truthy st.intent then some "confirmed" else none)
      else none

/-- `rules.has_budget`. -/
def has_budget (st : SessionState) : Bool :=
  match st.criteria.budget with
  | some (Value.int b) => b > 0
  | _ => false

/-- `rules.missing_critical_fields`. -/
def missing_critical_fields (st : SessionState) : List String :=
  let missing := if truthy st.intent then ([] : List String) else ["intent"]
  let city_val := rules_value st "city"
  let missing := missing ++
    (if ¬truthy city_val then ["city"]
     else if rules_status st "city" = some "inferred" then ["city_confirm"] else [])
  let missing := missing ++
    (if ¬truthy (rules_value st "neighborhood") then ["neighborhood"] else [])
  let missing := missing ++
    (if ¬truthy (rules_value st "property_type") then ["property_type"] else [])
  let missing := missing ++ (if rules_value st "bedrooms" = none then ["bedrooms"] else [])
  let missing := missing ++ (if rules_value st "parking" = none then ["parking"] else [])
  let missing := missing ++ (if rules_value st "budget" = none then ["budget"] else [])
  let missing := missing ++ (if rules_value st "timeline" = none then ["timeline"] else [])
  let micro_val := rules_value st "micro_location"
  let micro_status := rules_status st "micro_location"
  missing ++
    (if micro_status = some "inferred" ∨ micro_val = some (Value.str "orla") then
      ["micro_location"] else [])

/-- `rules._intent_stage_ready`.  The first statement reads the undeclared
`intent_stage` attribute, so a fresh state raises `AttributeError`. -/
def _intent_stage_ready (st : SessionState) : Except String Bool :=
  match st.intent_stage with
  | none => .error (attrErr "intent_stage")
  | some stage =>
      if stage ≠ Value.str "unknown" then .ok false
      else
        let has_location := truthy st.criteria.neighborhood || truthy st.criteria.city
        let budget_ok := has_budget st
        let has_bedrooms := st.criteria.bedrooms ≠ none
        let vals := [st.criteria.neighborhood, st.criteria.city, st.criteria.budget,
          st.criteria.bedrooms, st.criteria.property_type]
        let critical_filled := (vals.filter (fun v => truthy v)).length
        .ok (budget_ok && (has_bedrooms || has_location) && critical_filled ≥ 2)

/-- `rules.next_best_question_key`. -/
def next_best_question_key (st : SessionState) : Except String (Option String) :=
  let missing := missing_critical_fields st
  if missing.contains "micro_location" ∧ ¬st.asked_questions.contains "micro_location" then
    .ok (some "micro_location")
  else do
    let ready ← _intent_stage_ready st
    let gating_blockers := ["intent", "city", "neighborhood", "property_type",
      "budget", "bedrooms", "micro_location"]
    if ready ∧ ¬st.asked_questions.contains "intent_stage" ∧
        ¬gating_blockers.any (fun b => missing.contains b) then
      .ok (some "intent_stage")
    else
      match missing.find? (fun k => ¬st.asked_questions.contains k) with
      | some k => .ok (some k)
      | none =>
          match missing with
          | k :: _ => .ok (some k)
          | [] =>
              if ¬truthy st.lead_profile.name ∧
                  ¬st.asked_questions.contains "lead_name" then
                .ok (some "lead_name")
              else
                .ok (PREFERENCE_ORDER.find? (fun k =>
                  rules_value st k = none && ¬st.asked_questions.contains k))

/-- The result of `quality.compute_quality_score` restricted to the keys its
callers consume (`score`, `grade`, `reasons`; the `completeness` and
`confidence` ratios are never read by the verified operations). -/
structure QualityResult where
  score : Int
  grade : String
  reasons : List String
deriving DecidableEq, Repr

/-- The per-field adjustment of the critical-completeness loop of
`compute_quality_score`: -15 for a missing critical field, -5 for one that is
present but `inferred`, 0 otherwise (`intent` is read from the state
attribute). -/
def critPenalty (st : SessionState) (f : String) : Int :=
  if f = "intent" then (if truthy st.intent then 0 else -15)
  else
    match List.lookup f st.triage_fields with
    | some e =>
        if e.value ≠ none then
          (if e.status = "confirmed" then 0
           else if e.status = "inferred" then -5 else 0)
        else -15
    | none => -15

/-- The reasons recorded by the critical-completeness loop for one field. -/
def critReason (st : SessionState) (f : String) : List String :=
  if f = "intent" then (if truthy st.intent then [] else ["missing_critical_intent"])
  else
    match List.lookup f st.triage_fields with
    | some e =>
        if e.value ≠ none then
          (if e.status = "confirmed" then []
           else if e.status = "inferred" then ["inferred_" ++ f] else [])
        else ["missing_critical_" ++ f]
    | none => ["missing_critical_" ++ f]

/-- Total adjustment of the critical-completeness section. -/
def qualityCriticalDelta (st : SessionState) : Int :=
  (CRITICAL_ORDER.map (critPenalty st)).sum

/-- Reasons of the critical-completeness section, in loop order. -/
def qualityCriticalReasons (st : SessionState) : List String :=
  (CRITICAL_ORDER.map (critReason st)).flatten

/-- Condition of the `micro_location_ambiguous` deduction (-10). -/
def micro_ambiguous_fires (st : SessionState) : Bool :=
  match List.lookup "micro_location" st.triage_fields with
  | some e => e.value = some (Value.str "orla") || e.status = "inferred"
  | none => false

/-- Condition of the `missing_condo_max_high_budget` deduction (-8): a truthy
budget above 500000 with no condo cap.  The budget slot only ever holds an
integer (produced by `_normalize_numeric`). -/
def condo_penalty_fires (st : SessionState) : Bool :=
  match st.criteria.budget with
  | some (Value.int b) => b ≠ 0 && b > 500000 && ¬truthy st.criteria.condo_max
  | _ => false

/-- Condition of the `missing_payment_type` deduction (-5). -/
def payment_missing_fires (st : SessionState) : Bool :=
  st.intent = some (Value.str "comprar") &&
    (match List.lookup "payment_type" st.triage_fields with
     | some e => ¬truthy e.value
     | none => true)

/-- Total adjustment of the dealbreaker section of `compute_quality_score`. -/
def dealbreakerDelta (st : SessionState) : Int :=
  (if micro_ambiguous_fires st then -10 else 0) +
  (if condo_penalty_fires st then -8 else 0) +
  (if payment_missing_fires st then -5 else 0)

/-- Reasons of the dealbreaker section, in order. -/
def dealbreakerReasons (st : SessionState) : List String :=
  (if micro_ambiguous_fires st then ["micro_location_ambiguous"] else []) ++
  (if condo_penalty_fires st then ["missing_condo_max_high_budget"] else []) ++
  (if payment_missing_fires st then ["missing_payment_type"] else [])

/-- The last `n` elements of a list (Python `l[-n:]`). -/
def lastN {α : Type} (n : Nat) (l : List α) : List α := l.drop (l.length - n)

/-- Condition of the `unresolved_conflict` deduction (-20): a conflict prompt
in the last three history messages. -/
def unresolved_conflict_fires (st : SessionState) : Bool :=
  (lastN 3 st.history).any (fun h =>
    pyContains (pyLower h.text) "duas respostas diferentes" ||
    pyContains (pyLower h.text) "qual vale")

/-- Adjustment of the pending-conflict section. -/
def conflictDelta (st : SessionState) : Int :=
  if unresolved_conflict_fires st then -20 else 0

/-- Reasons of the pending-conflict section. -/
def conflictReasons (st : SessionState) : List String :=
  if unresolved_conflict_fires st then ["unresolved_conflict"] else []

/-- Condition of the `neighborhood_without_city` deduction (-10). -/
def neighborhood_without_city_fires (st : SessionState) : Bool :=
  truthy st.criteria.neighborhood && ¬truthy st.criteria.city

/-- Condition of the `budget_inconsistent` deduction (-15): truthy min and max
budgets with min above max. -/
def budget_inconsistent_fires (st : SessionState) : Bool :=
  match st.criteria.budget_min, st.criteria.budget with
  | some (Value.int mn), some (Value.int mx) => mn ≠ 0 && mx ≠ 0 && mn > mx
  | _, _ => false

/-- Condition of the `timeline_missing_with_urgency` deduction (-5). -/
def timeline_missing_urgency_fires (st : SessionState) : Bool :=
  ¬truthy st.criteria.timeline && truthy st.criteria.urgency

/-- Total adjustment of the data-consistency section. -/
def consistencyDelta (st : SessionState) : Int :=
  (if neighborhood_without_city_fires st then -10 else 0) +
  (if budget_inconsistent_fires st then -15 else 0) +
  (if timeline_missing_urgency_fires st then -5 else 0)

/-- Reasons of the data-consistency section, in order. -/
def consistencyReasons (st : SessionState) : List String :=
  (if neighborhood_without_city_fires st then ["neighborhood_without_city"] else []) ++
  (if budget_inconsistent_fires st then ["budget_inconsistent"] else []) ++
  (if timeline_missing_urgency_fires st then ["timeline_missing_with_urgency"] else [])

/-- Condition of the confirmed specific micro-location bonus (+5). -/
def micro_bonus_fires (st : SessionState) : Bool :=
  match List.lookup "micro_location" st.triage_fields with
  | some e => e.status = "confirmed" && e.value ≠ some (Value.str "orla") && e.value ≠ none
  | none => false

/-- Condition of the suites bonus (+3). -/
def suites_bonus_fires (st : SessionState) : Bool :=
  match st.criteria.suites with
  | some (Value.int s) => s ≠ 0 && s > 0
  | _ => false

/-- Condition of the lead-name bonus (+2). -/
def name_bonus_fires (st : SessionState) : Bool := truthy st.lead_profile.name

/-- Condition of the specific-timeline bonus (+3). -/
def timeline_bonus_fires (st : SessionState) : Bool :=
  truthy st.criteria.timeline && st.criteria.timeline ≠ some (Value.str "flexivel")

/-- Total adjustment of the bonus section. -/
def bonusDelta (st : SessionState) : Int :=
  (if micro_bonus_fires st then 5 else 0) +
  (if suites_bonus_fires st then 3 else 0) +
  (if name_bonus_fires st then 2 else 0) +
  (if timeline_bonus_fires st then 3 else 0)

/-- Reasons of the bonus section, in order. -/
def bonusReasons (st : SessionState) : List String :=
  (if micro_bonus_fires st then ["micro_location_confirmed"] else []) ++
  (if suites_bonus_fires st then ["suites_defined"] else []) ++
  (if name_bonus_fires st then ["name_available"] else []) ++
  (if timeline_bonus_fires st then ["timeline_specific"] else [])

/-- The raw quality score before clamping: 100 plus every sequential
adjustment of `compute_quality_score`, section by section in program order. -/
def qualityScoreRaw (st : SessionState) : Int :=
  100 + qualityCriticalDelta st + dealbreakerDelta st + conflictDelta st +
    consistencyDelta st + bonusDelta st

/-- The letter grade of `compute_quality_score`. -/
def qualityGrade (score : Int) : String :=
  if score ≥ 85 then "A"
  else if score ≥ 70 then "B"
  else if score ≥ 50 then "C"
  else "D"

/-- `quality.compute_quality_score`. -/
def compute_quality_score (st : SessionState) : QualityResult :=
  let score := max 0 (min 100 (qualityScoreRaw st))
  { score := score,
    grade := qualityGrade score,
    reasons := qualityCriticalReasons st ++ dealbreakerReasons st ++
      conflictReasons st ++ consistencyReasons st ++ bonusReasons st }

/-- `quality_gate.MAX_QUALITY_GATE_TURNS`. -/
def MAX_QUALITY_GATE_TURNS : Int := 3

/-- `quality_gate.QUALITY_GATE_MIN_SCORE`. -/
def QUALITY_GATE_MIN_SCORE : Int := 70

/-- The `QualityGaps` dataclass of `quality_gate.py`. -/
structure QualityGaps where
  missing_required_fields : List String := []
  ambiguous_fields : List String := []
  conflicting_fields : List String := []
  low_confidence_fields : List String := []
  dealbreakers : List String := []
deriving DecidableEq, Repr

/-- Append an element to a list unless already present (the
`if x not in l: l.append(x)` idiom of `identify_quality_gaps`). -/
def addUnique (l : List String) (x : String) : List String :=
  if l.contains x then l else l ++ [x]

/-- The body of `quality_gate.identify_quality_gaps`, folded over the quality
reasons in order. -/
def identify_gaps_go (acc : QualityGaps) : List String → QualityGaps
  | [] => acc
  | r :: rest =>
      let acc :=
        if pyStartsWith r "missing_critical_" then
          { acc with missing_required_fields :=
              addUnique acc.missing_required_fields (pyReplace r "missing_critical_" "") }
        else if pyStartsWith r "inferred_" then
          { acc with low_confidence_fields :=
              addUnique acc.low_confidence_fields (pyReplace r "inferred_" "") }
        else if r = "micro_location_ambiguous" then
          { acc with ambiguous_fields := addUnique acc.ambiguous_fields "micro_location",
                     dealbreakers := addUnique acc.dealbreakers "micro_location" }
        else if r = "missing_condo_max_high_budget" then
          { acc with
              missing_required_fields := addUnique acc.missing_required_fields "condo_max",
              dealbreakers := addUnique acc.dealbreakers "condo_max" }
        else if r = "missing_payment_type" then
          { acc with
              missing_required_fields := addUnique acc.missing_required_fields "payment_type",
              dealbreakers := addUnique acc.dealbreakers "payment_type" }
        else if r = "neighborhood_without_city" then
          { acc with conflicting_fields := addUnique acc.conflicting_fields "city" }
        else if r = "budget_inconsistent" then
          { acc with conflicting_fields := addUnique acc.conflicting_fields "budget" }
        else acc
      identify_gaps_go acc rest

/-- `quality_gate.identify_quality_gaps` (it only reads `quality["reasons"]`;
the state argument is unused in the source). -/
def identify_quality_gaps (reasons : List String) : QualityGaps :=
  identify_gaps_go {} reasons

/-- `quality_gate.should_handoff`.  Reading the undeclared
`quality_gate_turns` attribute of a fresh state is an `AttributeError`. -/
def should_handoff (st : SessionState) (quality : QualityResult) : Except String Bool :=
  let grade := quality.grade
  let score := quality.score
  match st.quality_gate_turns with
  | none => .error (attrErr "quality_gate_turns")
  | some turns =>
      if turns ≥ MAX_QUALITY_GATE_TURNS then .ok true
      else if grade = "A" ∨ grade = "B" ∨ score ≥ QUALITY_GATE_MIN_SCORE then .ok true
      else
        let gaps := identify_quality_gaps quality.reasons
        let total_gaps := gaps.missing_required_fields.length +
          gaps.ambiguous_fields.length + gaps.conflicting_fields.length
        if total_gaps = 0 then .ok true else .ok false

/-- Read of the undeclared `field_refusals` attribute. -/
def refusals_get (st : SessionState) : Except String (List (String × Int)) :=
  match st.field_refusals with
  | none => .error (attrErr "field_refusals")
  | some l => .ok l

/-- `state.field_refusals.get(field, 0)`. -/
def refusal_count (l : List (String × Int)) (f : String) : Int :=
  (List.lookup f l).getD 0

/-- Priority 1 of `next_question_from_quality_gaps`: dealbreakers. -/
def gap_loop_dealbreakers (st : SessionState) :
    List String → Except String (Option String)
  | [] => .ok none
  | f :: rest => do
      let fr ← refusals_get st
      if refusal_count fr f > 0 then gap_loop_dealbreakers st rest
      else if st.last_question_key = some f then gap_loop_dealbreakers st rest
      else if ¬st.asked_questions.contains f ∨ st.asked_questions.count f = 0 then
        .ok (some f)
      else gap_loop_dealbreakers st rest

/-- Priority 2: critical fields among the missing gaps, in `CRITICAL_ORDER`. -/
def gap_loop_critical (st : SessionState) (missing : List String) :
    List String → Except String (Option String)
  | [] => .ok none
  | f :: rest =>
      if missing.contains f then do
        let fr ← refusals_get st
        if refusal_count fr f > 0 then gap_loop_critical st missing rest
        else if st.last_question_key = some f then gap_loop_critical st missing rest
        else if ¬st.asked_questions.contains f then .ok (some f)
        else gap_loop_critical st missing rest
      else gap_loop_critical st missing rest

/-- Priority 3: non-critical missing gaps. -/
def gap_loop_noncritical (st : SessionState) :
    List String → Except String (Option String)
  | [] => .ok none
  | f :: rest =>
      if ¬CRITICAL_ORDER.contains f then do
        let fr ← refusals_get st
        if refusal_count fr f > 0 then gap_loop_noncritical st rest
        else if st.last_question_key = some f then gap_loop_noncritical st rest
        else if ¬st.asked_questions.contains f then .ok (some f)
        else gap_loop_noncritical st rest
      else gap_loop_noncritical st rest

/-- Priority 4: ambiguous fields (may be re-asked once). -/
def gap_loop_ambiguous (st : SessionState) :
    List String → Except String (Option String)
  | [] => .ok none
  | f :: rest => do
      let fr ← refusals_get st
      if refusal_count fr f > 0 then gap_loop_ambiguous st rest
      else if st.last_question_key = some f then gap_loop_ambiguous st rest
      else if st.asked_questions.count f < 2 then .ok (some f)
      else gap_loop_ambiguous st rest

/-- Priority 5: low-confidence (inferred) fields; `city` routes to its
confirmation variant. -/
def gap_loop_low_confidence (st : SessionState) :
    List String → Except String (Option String)
  | [] => .ok none
  | f :: rest => do
      let fr ← refusals_get st
      if refusal_count fr f > 0 then gap_loop_low_confidence st rest
      else if st.last_question_key = some f then gap_loop_low_confidence st rest
      else if f = "city" then .ok (some "city_confirm")
      else if st.asked_questions.count f < 2 then .ok (some f)
      else gap_loop_low_confidence st rest

/-- Priority 6: conflicting fields. -/
def gap_loop_conflicting (st : SessionState) :
    List String → Except String (Option String)
  | [] => .ok none
  | f :: rest => do
      let fr ← refusals_get st
      if refusal_count fr f > 0 then gap_loop_conflicting st rest
      else if st.last_question_key = some f then gap_loop_conflicting st rest
      else if st.asked_questions.count f < 2 then .ok (some f)
      else gap_loop_conflicting st rest

/-- `quality_gate.next_question_from_quality_gaps`. -/
def next_question_from_quality_gaps (st : SessionState) (quality : QualityResult) :
    Except String (Option String) := do
  let gaps := identify_quality_gaps quality.reasons
  let r1 ← gap_loop_dealbreakers st gaps.dealbreakers
  if r1.isSome then return r1
  let r2 ← gap_loop_critical st gaps.missing_required_fields CRITICAL_ORDER
  if r2.isSome then return r2
  let r3 ← gap_loop_noncritical st gaps.missing_required_fields
  if r3.isSome then return r3
  let r4 ← gap_loop_ambiguous st gaps.ambiguous_fields
  if r4.isSome then return r4
  let r5 ← gap_loop_low_confidence st gaps.low_confidence_fields
  if r5.isSome then return r5
  let r6 ← gap_loop_conflicting st gaps.conflicting_fields
  if r6.isSome then return r6
  return none

/-- `scoring.compute_lead_score`.  It returns the same keys as the
`LeadScore` dataclass, so that structure is reused for its result.  The
`intent_stage` read uses `getattr(state, "intent_stage", "unknown")`, which
never raises. -/
def compute_lead_score (st : SessionState) : LeadScore :=
  let p1 : Int × List String :=
    if truthy st.criteria.budget then (20, ["budget_defined"]) else (0, [])
  let p2 : Int × List String :=
    if truthy st.criteria.city then (10, ["city_defined"]) else (0, [])
  let p3 : Int × List String :=
    if truthy st.criteria.neighborhood then (15, ["neighborhood_defined"]) else (0, [])
  let p4 : Int × List String :=
    if truthy st.criteria.micro_location ∧
        st.criteria.micro_location ≠ some (Value.str "orla") then
      (10, ["micro_location_defined"])
    else (0, [])
  let p5 : Int × List String :=
    match st.criteria.bedrooms with
    | some (Value.int b) => if b ≠ 0 ∧ b ≥ 3 then (10, ["3_plus_bedrooms"]) else (0, [])
    | _ => (0, [])
  let p6 : Int × List String :=
    match st.criteria.parking with
    | some (Value.int p) => if p ≠ 0 ∧ p ≥ 2 then (5, ["2_plus_parking"]) else (0, [])
    | _ => (0, [])
  let p7 : Int × List String :=
    if st.intent = some (Value.str "comprar") ∨ st.intent = some (Value.str "alugar") then
      (5, ["intent_confirmed"])
    else (0, [])
  let tl := st.criteria.timeline
  let p8 : Int × List String :=
    if tl = some (Value.str "30d") then (25, ["timeline_30d"])
    else if tl = some (Value.str "3m") then (20, ["timeline_3m"])
    else if tl = some (Value.str "6m") then (10, ["timeline_6m"])
    else if tl = some (Value.str "12m") then (5, ["timeline_12m"])
    else (0, [])
  let stage := st.intent_stage.getD (Value.str "unknown")
  let p9 : Int × List String :=
    if stage = Value.str "ready_to_visit" then (8, ["intent_stage_ready_to_visit"])
    else if stage = Value.str "negotiating" then (8, ["intent_stage_negotiating"])
    else if stage = Value.str "researching" then
      (if tl ≠ some (Value.str "30d") ∧ tl ≠ some (Value.str "3m") then (-5) else 0,
       ["intent_stage_researching"])
    else (0, [])
  let score := p1.1 + p2.1 + p3.1 + p4.1 + p5.1 + p6.1 + p7.1 + p8.1 + p9.1
  let reasons := p1.2 ++ p2.2 ++ p3.2 ++ p4.2 ++ p5.2 ++ p6.2 ++ p7.2 ++ p8.2 ++ p9.2
  let score := max 0 score
  let score := min score 100
  let temperature :=
    if score ≥ 70 then "hot" else if score ≥ 40 then "warm" else "cold"
  { temperature := temperature, score := score, reasons := reasons }

/-- `sla.HOT_THRESHOLD` (the documented default of the env override). -/
def HOT_THRESHOLD : Int := 80

/-- `sla.WARM_THRESHOLD` (the documented default of the env override). -/
def WARM_THRESHOLD : Int := 50

/-- `sla.classify_lead` (the session-state argument is unused in the
source). -/
def classify_lead (lead_score : Int) (_st : SessionState) : String :=
  if lead_score ≥ HOT_THRESHOLD then "HOT"
  else if lead_score ≥ WARM_THRESHOLD then "WARM"
  else "COLD"

/-- The action dictionary returned by `sla.compute_sla_action`. -/
structure SlaAction where
  sla_type : String
  priority : Bool
  should_emit_hot_event : Bool
  message_template : String
  routing_strategy : String
deriving DecidableEq, Repr

/-- `sla.compute_sla_action`.  The HOT branch reads the undeclared
`hot_lead_emitted` attribute, so a fresh state raises `AttributeError`
there. -/
def compute_sla_action (lead_class : String) (quality_grade : String)
    (st : SessionState) : Except String SlaAction :=
  if lead_class = "HOT" then
    match st.hot_lead_emitted with
    | none => .error (attrErr "hot_lead_emitted")
    | some emitted =>
        .ok { sla_type := "immediate", priority := true,
              should_emit_hot_event := ¬emitted, message_template := "hot",
              routing_strategy := "priority" }
  else if lead_class = "WARM" then
    .ok { sla_type := "normal", priority := false, should_emit_hot_event := false,
          message_template := "warm", routing_strategy := "normal" }
  else if quality_grade = "A" ∨ quality_grade = "B" then
    .ok { sla_type := "normal", priority := false, should_emit_hot_event := false,
          message_template := "cold_handoff", routing_strategy := "normal" }
  else
    .ok { sla_type := "nurture", priority := false, should_emit_hot_event := false,
          message_template := "cold_nurture", routing_strategy := "delayed" }

/-- `sla.should_emit_hot_event`: the non-HOT early return precedes the
`hot_lead_emitted` read. -/
def should_emit_hot_event (st : SessionState) (lead_class : String) :
    Except String Bool :=
  if lead_class ≠ "HOT" then .ok false
  else
    match st.hot_lead_emitted with
    | none => .error (attrErr "hot_lead_emitted")
    | some emitted => if emitted then .ok false else .ok true

/-- The `Agent` dataclass of `router.py`. -/
structure Agent where
  id : String
  name : String
  whatsapp : String
  active : Bool
  ops : List String
  coverage_neighborhoods : List String
  micro_location_tags : List String
  price_min : Int
  price_max : Int
  specialties : List String
  daily_capacity : Int
  priority_tier : String
deriving DecidableEq, Repr

/-- The `AgentStats` dataclass. -/
structure AgentStats where
  assigned_today : Int := 0
  last_assigned_at : Option String := none
deriving DecidableEq, Repr

/-- The stats store `{agent_id: AgentStats}` (an ordered dict). -/
abbrev StatsMap := List (String × AgentStats)

/-- `stats.get(agent_id, AgentStats())`. -/
def statsGet (stats : StatsMap) (id : String) : AgentStats :=
  (List.lookup id stats).getD {}

/-- The `RoutingResult` dataclass. -/
structure RoutingResult where
  agent_id : String
  agent_name : String
  whatsapp : String
  score : Int
  reasons : List String
  strategy : String
  evaluated_agents_count : Int
  fallback : Bool := false
deriving DecidableEq, Repr

/-- `router._normalize_neighborhood` (a falsy input, `None` or `""`, maps to
`None`). -/
def norm_neighborhood (n : Option String) : Option String :=
  match n with
  | none => none
  | some s => if s = "" then none else some (pyTrim (pyLower s))

/-- `router._normalize_micro_location`. -/
def norm_micro (m : Option String) : Option String :=
  match m with
  | none => none
  | some s =>
      if s = "" then none
      else
        let normalized := pyTrim (pyLower s)
        let normalized := pyTrim (pyReplace (pyReplace normalized "(praia)" "") "_da_praia" "")
        some normalized

/-- `router._get_intent_type`. -/
def _get_intent_type (intent : Option Value) : Option String :=
  match asStr intent with
  | none => none
  | some s =>
      if s = "" then none
      else
        let il := pyLower s
        if il = "alugar" ∨ il = "aluguel" then some "rent"
        else if il = "comprar" ∨ il = "compra" then some "buy"
        else if il = "investir" then some "buy"
        else none

/-- The normalized coverage list `[_normalize_neighborhood(n) for n in
agent.coverage_neighborhoods]` of `score_agent`. -/
def agentNeighborhoods (a : Agent) : List (Option String) :=
  a.coverage_neighborhoods.map (fun n => norm_neighborhood (some n))

/-- `("generalista" in agent.specialties) or ("*" in
agent.coverage_neighborhoods)`. -/
def isGeneralist (a : Agent) : Bool :=
  a.specialties.contains "generalista" || a.coverage_neighborhoods.contains "*"

/-- The neighborhood soft-score block of `score_agent` (+30 on a coverage
match, -10 when the agent has some coverage that does not match, +5 for a
generalist or coverage-free agent when the lead has no neighborhood). -/
def nb_score (a : Agent) (lead : SessionState) : Int × List String :=
  match norm_neighborhood (asStr lead.criteria.neighborhood) with
  | some nb =>
      if (agentNeighborhoods a).contains (some nb) then
        (30, ["neighborhood_match_" ++ nb])
      else if a.coverage_neighborhoods ≠ [] then (-10, ["neighborhood_mismatch"])
      else (0, [])
  | none =>
      if a.coverage_neighborhoods = [] || a.specialties.contains "generalista" then
        (5, ["generalista_no_neighborhood"])
      else (0, [])

/-- The micro-location tag block of `score_agent` (+15 on a tag match). -/
def micro_score (a : Agent) (lead : SessionState) : Int × List String :=
  match norm_micro (asStr lead.criteria.micro_location) with
  | some m =>
      if (a.micro_location_tags.map (fun t => norm_micro (some t))).contains (some m) then
        (15, ["micro_location_match_" ++ m])
      else (0, [])
  | none => (0, [])

/-- The price-band block of `score_agent` (+20 in band, -15 outside). -/
def price_score (a : Agent) (lead : SessionState) : Int × List String :=
  match asInt lead.criteria.budget with
  | some b =>
      if b = 0 then (0, [])
      else if a.price_min ≤ b ∧ b ≤ a.price_max then (20, ["price_range_match"])
      else if b < a.price_min then (-15, ["price_too_low"])
      else if b > a.price_max then (-15, ["price_too_high"])
      else (0, [])
  | none => (0, [])

/-- The temperature-tier alignment block of `score_agent`. -/
def tier_score (a : Agent) (lead : SessionState) : Int × List String :=
  let temp := lead.lead_score.temperature
  let tier := a.priority_tier
  if temp = "hot" ∧ tier = "senior" then (10, ["hot_senior_match"])
  else if temp = "warm" ∧ tier = "standard" then (5, ["warm_standard_match"])
  else if temp = "cold" ∧ tier = "junior" then (5, ["cold_junior_match"])
  else (0, [])

/-- The high-budget specialty bonus of `score_agent`. -/
def alto_padrao_score (a : Agent) (lead : SessionState) : Int × List String :=
  if a.specialties.contains "alto_padrao" ∧
      (match asInt lead.criteria.budget with
        | some b => decide (b ≠ 0 ∧ b ≥ 900000)
        | none => false) = true then
    (10, ["specialty_alto_padrao"])
  else (0, [])

/-- The family specialty bonus of `score_agent`. -/
def familia_score (a : Agent) (lead : SessionState) : Int × List String :=
  if a.specialties.contains "familia" ∧ (asInt lead.criteria.bedrooms).getD 0 ≥ 3 then
    (10, ["specialty_familia"])
  else (0, [])

/-- The pet-friendly specialty bonus of `score_agent`. -/
def pet_score (a : Agent) (lead : SessionState) : Int × List String :=
  if a.specialties.contains "pet_friendly" ∧ truthy lead.criteria.pet then
    (5, ["specialty_pet"])
  else (0, [])

/-- The soft-scoring part of `router.score_agent`: every `score +=` block
between the hard filters and the daily-capacity check, in program order. -/
def score_agent_base (a : Agent) (lead : SessionState) : Int × List String :=
  let p1 := nb_score a lead
  let p2 := micro_score a lead
  let p3 := price_score a lead
  let p4 := tier_score a lead
  let p5 := alto_padrao_score a lead
  let p6 := familia_score a lead
  let p7 := pet_score a lead
  (p1.1 + p2.1 + p3.1 + p4.1 + p5.1 + p6.1 + p7.1,
   p1.2 ++ p2.2 ++ p3.2 ++ p4.2 ++ p5.2 ++ p6.2 ++ p7.2)

/-- The neighborhood hard filter of `score_agent`: the lead has a known
neighborhood and the agent has a non-empty coverage list that does not contain
it, without being a wildcard or generalist agent. -/
def hard_filtered (a : Agent) (lead : SessionState) : Bool :=
  match norm_neighborhood (asStr lead.criteria.neighborhood) with
  | some nb =>
      (agentNeighborhoods a) ≠ [] ∧
        ¬(agentNeighborhoods a).contains (some nb) ∧ ¬isGeneralist a
  | none => false

/-- `router.score_agent`. -/
def score_agent (a : Agent) (lead : SessionState) (stats : StatsMap)
    (priority : Bool) : Int × List String :=
  if ¬a.active then (-1000, ["agent_inactive"])
  else
    match _get_intent_type lead.intent with
    | some t =>
        if ¬a.ops.contains t then (-1000, ["operation_incompatible_" ++ t])
        else score_agent_checked a lead stats priority
    | none => score_agent_checked a lead stats priority
where
  /-- The part of `score_agent` after the activity and operation checks:
  the neighborhood hard filter, then the soft scoring and capacity check. -/
  score_agent_checked (a : Agent) (lead : SessionState) (stats : StatsMap)
      (priority : Bool) : Int × List String :=
    if hard_filtered a lead then (-1000, ["neighborhood_mismatch_hard"])
    else
      let base := score_agent_base a lead
      let ast := statsGet stats a.id
      if ¬priority ∧ ast.assigned_today ≥ a.daily_capacity then
        (-1000, ["capacity_reached_" ++ toString ast.assigned_today ++ "/" ++
          toString a.daily_capacity])
      else if priority ∧ ast.assigned_today ≥ a.daily_capacity then
        (base.1 - 5, base.2 ++ ["priority_override_capacity_" ++
          toString ast.assigned_today ++ "/" ++ toString a.daily_capacity])
      else base

/-- The sort key of `choose_agent`: `(-score, assigned_today,
last_assigned_at or epoch)`. -/
def routeKey (stats : StatsMap) (item : Agent × Int × List String) :
    Int × Int × String :=
  let ast := statsGet stats item.1.id
  let last := match ast.last_assigned_at with
    | none => "1970-01-01T00:00:00Z"
    | some s => if s = "" then "1970-01-01T00:00:00Z" else s
  (-item.2.1, ast.assigned_today, last)

/-- Strict lexicographic comparison of sort keys (Python tuple `<`). -/
def keyLt (k1 k2 : Int × Int × String) : Bool :=
  k1.1 < k2.1 ∨ (k1.1 = k2.1 ∧ (k1.2.1 < k2.2.1 ∨
    (k1.2.1 = k2.2.1 ∧ k1.2.2 < k2.2.2)))

/-- The first element of the stably sorted candidate list: the earliest
candidate with the minimal sort key (Python `list.sort` is stable, so
`sorted[0]` is exactly this fold). -/
def pickBest (stats : StatsMap) :
    List (Agent × Int × List String) → Option (Agent × Int × List String)
  | [] => none
  | x :: xs =>
      some (xs.foldl (fun best y =>
        if keyLt (routeKey stats y) (routeKey stats best) then y else best) x)

/-- The earliest agent with minimal `assigned_today` (the stable
`sort(key=assigned_today)` followed by `[0]` of the fallback paths). -/
def pickLeastLoaded (stats : StatsMap) : List Agent → Option Agent
  | [] => none
  | x :: xs =>
      some (xs.foldl (fun best y =>
        if (statsGet stats y.id).assigned_today <
            (statsGet stats best.id).assigned_today then y else best) x)

/-- Increment an agent's daily counter and stamp the assignment time (the
`stats[id].assigned_today += 1` block shared by all assignment paths). -/
def bumpStats (stats : StatsMap) (id : String) (now : String) : StatsMap :=
  let ast := statsGet stats id
  dictSet stats id { assigned_today := ast.assigned_today + 1, last_assigned_at := some now }

/-- `router._fallback_agent` (the `now` argument models
`datetime.utcnow().isoformat()`; file persistence and logging are
dropped). -/
def _fallback_agent (agents : List Agent) (stats : StatsMap)
    (lead : SessionState) (allow_mismatch : Bool) (now : String) :
    Option (RoutingResult × StatsMap) :=
  let lead_nb := norm_neighborhood (asStr lead.criteria.neighborhood)
  let desired_op := _get_intent_type lead.intent
  let opOk := fun (a : Agent) =>
    match desired_op with
    | some t => a.ops.contains t
    | none => true
  let generalistas := agents.filter (fun a =>
    a.active && opOk a &&
      (match lead_nb with
       | some _ => a.coverage_neighborhoods.contains "*" ||
           a.specialties.contains "generalista"
       | none => a.specialties.contains "generalista" ||
           a.coverage_neighborhoods.contains "*" || a.coverage_neighborhoods.isEmpty))
  match pickLeastLoaded stats generalistas with
  | some fb =>
      some ({ agent_id := fb.id, agent_name := fb.name, whatsapp := fb.whatsapp,
              score := 0, reasons := ["fallback_generalista"],
              strategy := "fallback_generalista",
              evaluated_agents_count := agents.length, fallback := true },
            bumpStats stats fb.id now)
  | none =>
      let active := agents.filter (fun a => a.active && opOk a)
      match pickLeastLoaded stats active with
      | some fb =>
          if lead_nb.isSome ∧ ¬allow_mismatch then none
          else
            let strategy :=
              if lead_nb.isSome then "fallback_default_queue_mismatch"
              else "fallback_default_queue"
            some ({ agent_id := fb.id, agent_name := fb.name, whatsapp := fb.whatsapp,
                    score := 0, reasons := ["fallback_default_queue"],
                    strategy := strategy,
                    evaluated_agents_count := agents.length, fallback := true },
                  bumpStats stats fb.id now)
      | none => none

/-- The stats restriction of `choose_agent` to the ids of the loaded
roster. -/
def statsFilter (agents : List Agent) (stats : StatsMap) : StatsMap :=
  let allowed := agents.map (fun a => a.id)
  stats.filter (fun kv => allowed.contains kv.1)

/-- The compatibility-filtered scored list of `choose_agent`: every agent
whose score survives the -1000 exclusion sentinel, with its score and
reasons. -/
def scored_candidates (agents : List Agent) (lead : SessionState)
    (stats : StatsMap) (priority : Bool) : List (Agent × Int × List String) :=
  agents.filterMap (fun a =>
    let sr := score_agent a lead stats priority
    if sr.1 > -1000 then some (a, sr.1, sr.2) else none)

/-- `router.choose_agent` as a pure function of the loaded stats (the stats
file read and write are modelled by the `stats` argument and the returned
updated map; logging is dropped). -/
def choose_agent (agents : List Agent) (lead : SessionState) (stats : StatsMap)
    (priority : Bool) (now : String) : Option (RoutingResult × StatsMap) :=
  if agents.isEmpty then none
  else
    let stats := statsFilter agents stats
    let lead_nb := norm_neighborhood (asStr lead.criteria.neighborhood)
    let match_found := agents.any (fun a =>
      match lead_nb with
      | some nb => (agentNeighborhoods a).contains (norm_neighborhood (some nb))
      | none => false)
    let scored := scored_candidates agents lead stats priority
    match pickBest stats scored with
    | none => _fallback_agent agents stats lead match_found now
    | some best =>
        some ({ agent_id := best.1.id, agent_name := best.1.name,
                whatsapp := best.1.whatsapp, score := best.2.1,
                reasons := best.2.2, strategy := "score_based",
                evaluated_agents_count := scored.length, fallback := false },
              bumpStats stats best.1.id now)

/-! Helper lemmas shared by the claim theorems. -/

theorem lookup_dictSet_self {α : Type} (l : List (String × α)) (k : String) (v : α) :
    List.lookup k (dictSet l k v) = some v := by
  induction l with
  | nil => simp [dictSet, List.lookup]
  | cons hd tl ih =>
      obtain ⟨k', v'⟩ := hd
      by_cases h : k' = k
      · simp [dictSet, h, List.lookup]
      · simp only [dictSet, if_neg h, List.lookup]
        have : (k == k') = false := by
          simp [beq_eq_false_iff_ne]
          exact fun e => h e.symm
        simp [this, ih]

theorem lookup_dictSet_ne {α : Type} (l : List (String × α)) (k k' : String) (v : α)
    (h : k' ≠ k) : List.lookup k' (dictSet l k v) = List.lookup k' l := by
  induction l with
  | nil => simp [dictSet, List.lookup, beq_eq_false_iff_ne.mpr h]
  | cons hd tl ih =>
      obtain ⟨k1, v1⟩ := hd
      by_cases hk : k1 = k
      · subst hk
        simp [dictSet, List.lookup, beq_eq_false_iff_ne.mpr h]
      · simp only [dictSet, if_neg hk, List.lookup]
        cases hbeq : (k' == k1) <;> simp [ih]

theorem clamp_mono {r r' : Int} (h : r ≤ r') :
    max 0 (min 100 r) ≤ max 0 (min 100 r') := by omega

theorem foldl_pick_mem {α : Type} (p : α → α → Bool) (x : α) (xs : List α) :
    xs.foldl (fun best y => if p best y then y else best) x ∈ x :: xs := by
  induction xs generalizing x with
  | nil => simp
  | cons hd tl ih =>
      simp only [List.foldl_cons]
      by_cases hp : p x hd
      · simp only [hp, if_true]
        have := ih hd
        rcases List.mem_cons.mp this with h | h
        · rw [h]; simp
        · simp [h]
      · simp only [hp, if_false, Bool.false_eq_true]
        have := ih x
        rcases List.mem_cons.mp this with h | h
        · rw [h]; simp
        · simp [h]

/-- C4: for every session state whose quality-gate turn counter is at least 3,
`should_handoff` returns true for every quality result, regardless of grade or
score. -/
theorem gate_termination (st : SessionState) (q : QualityResult) (n : Int)
    (hn : st.quality_gate_turns = some n) (h3 : n ≥ 3) :
    should_handoff st q = Except.ok true := by
  unfold should_handoff
  rw [hn]
  have : n ≥ MAX_QUALITY_GATE_TURNS := h3
  simp [this]

/-- Witness for C4 at a concrete gate-saturated state and fresh-state quality
result. -/
theorem gate_termination_witness :
    ({ freshState "w4" with quality_gate_turns := some 3 } :
        SessionState).quality_gate_turns = some 3 ∧
      (3 : Int) ≥ 3 ∧
      should_handoff { freshState "w4" with quality_gate_turns := some 3 }
        (compute_quality_score (freshState "w4")) = Except.ok true :=
  ⟨rfl, by norm_num,
    gate_termination _ _ 3 rfl (by norm_num)⟩

/-- C6: the lead-temperature score of `compute_lead_score` is clamped to
[0, 100], and `classify_lead` classifies HOT exactly at score 80 and above,
WARM exactly in [50, 80), and COLD exactly below 50. -/
theorem lead_temperature_classification :
    (∀ st : SessionState,
        0 ≤ (compute_lead_score st).score ∧ (compute_lead_score st).score ≤ 100) ∧
    (∀ (s : Int) (st : SessionState),
        (classify_lead s st = "HOT" ↔ 80 ≤ s) ∧
        (classify_lead s st = "WARM" ↔ 50 ≤ s ∧ s < 80) ∧
        (classify_lead s st = "COLD" ↔ s < 50)) := by
  constructor
  · intro st
    have key : ∀ r : Int, 0 ≤ min (max 0 r) 100 ∧ min (max 0 r) 100 ≤ 100 := by
      intro r; omega
    exact key _
  · intro s st
    unfold classify_lead HOT_THRESHOLD WARM_THRESHOLD
    refine ⟨?_, ?_, ?_⟩ <;> split_ifs with h1 h2 <;> simp_all <;> omega

/-- The fresh state used for claim C10. -/
def c10_fresh : SessionState := freshState "s0"

/-- The state used for claim C10 after a caller has assigned the four
dynamically-added attributes. -/
def c10_ready : SessionState :=
  { freshState "s0" with
      quality_gate_turns := some 3
      field_refusals := some []
      hot_lead_emitted := some false
      intent_stage := some (Value.str "unknown") }

/-- C10: the `SessionState` dataclass declares none of `quality_gate_turns`,
`field_refusals`, `hot_lead_emitted`, `intent_stage`, so on a freshly created
session state `should_handoff`, `next_question_from_quality_gaps`,
`compute_sla_action` (on its HOT branch) and `next_best_question_key` raise
`AttributeError` instead of returning a result; once a caller has assigned
those attributes, each of them returns a value. -/
theorem fresh_session_totality_gap :
    (∀ q : QualityResult,
        should_handoff c10_fresh q = Except.error (attrErr "quality_gate_turns")) ∧
    next_question_from_quality_gaps c10_fresh (compute_quality_score c10_fresh) =
      Except.error (attrErr "field_refusals") ∧
    (∀ g : String,
        compute_sla_action "HOT" g c10_fresh =
          Except.error (attrErr "hot_lead_emitted")) ∧
    next_best_question_key c10_fresh = Except.error (attrErr "intent_stage") ∧
    (∀ q : QualityResult, should_handoff c10_ready q = Except.ok true) ∧
    next_question_from_quality_gaps c10_ready (compute_quality_score c10_ready) =
      Except.ok (some "intent") ∧
    compute_sla_action "HOT" "A" c10_ready =
      Except.ok ⟨"immediate", true, true, "hot", "priority"⟩ ∧
    next_best_question_key c10_ready = Except.ok (some "intent") :=
  ⟨fun _ => rfl, rfl, fun _ => rfl, rfl, fun _ => rfl, rfl, rfl, rfl⟩

/-- The fresh state of claim C9's failing input. -/
def c9_fresh : SessionState := freshState "s9"

/-- A session whose hot-lead boolean has been assigned `False`. -/
def c9_unemitted : SessionState := { freshState "s9" with hot_lead_emitted := some false }

/-- A session whose hot-lead boolean has been assigned `True`. -/
def c9_emitted : SessionState := { freshState "s9" with hot_lead_emitted := some true }

/-- C9 (code bug evaluation): on the first completion of a hot lead the
controller calls `compute_sla_action("HOT", grade, state)` on a state whose
`hot_lead_emitted` attribute was never declared or initialized, so it raises
`AttributeError` and no event is ever emitted; the at-most-once guard itself
behaves as specified once the boolean exists (emits when `False`, refuses when
`True`, and never emits for a non-HOT class). -/
theorem hot_event_at_most_once_bug :
    compute_sla_action "HOT" "A" c9_fresh = Except.error (attrErr "hot_lead_emitted") ∧
    should_emit_hot_event c9_fresh "HOT" = Except.error (attrErr "hot_lead_emitted") ∧
    should_emit_hot_event c9_unemitted "HOT" = Except.ok true ∧
    should_emit_hot_event c9_emitted "HOT" = Except.ok false ∧
    compute_sla_action "HOT" "A" c9_emitted =
      Except.ok ⟨"immediate", true, false, "hot", "priority"⟩ ∧
    should_emit_hot_event c9_fresh "WARM" = Except.ok false ∧
    should_emit_hot_event c9_fresh "COLD" = Except.ok false :=
  ⟨rfl, rfl, rfl, rfl, rfl, rfl, rfl⟩

/-- The unrecognized timeline phrase of claim C7's counterexample. -/
def c7_input : Value := Value.str "algum dia"

/-- C7 counterexample: an unrecognized timeline phrase is NOT left unset —
`set_criterion` stores the raw phrase into both the criteria slot and the
triage field (the claim states no value is written). -/
theorem timeline_counterexample :
    _normalize_timeline (some c7_input) = none ∧
    (set_criterion (freshState "s7") "timeline" (some c7_input) "confirmed"
        "user").criteria.timeline = some c7_input ∧
    List.lookup "timeline"
        (set_criterion (freshState "s7") "timeline" (some c7_input) "confirmed"
          "user").triage_fields =
      some ⟨some c7_input, "confirmed", "user", 0⟩ :=
  ⟨rfl, rfl, rfl⟩

/-- C7 amended: normalization itself only ever yields values of the closed
enumeration, and for every phrase it does not recognize `set_criterion`
stores the raw phrase (rather than leaving the field unset). -/
theorem timeline_normalization_amended :
    (∀ (v : Option Value) (t : String), _normalize_timeline v = some t →
        t ∈ (["30d", "3m", "6m", "12m", "flexivel"] : List String)) ∧
    (∀ (st : SessionState) (v : Value) (status source : String),
        _normalize_timeline (some v) = none →
        ((set_criterion st "timeline" (some v) status source).criteria.timeline =
            some v ∧
          List.lookup "timeline"
              (set_criterion st "timeline" (some v) status source).triage_fields =
            some ⟨some v, status, source, st.now⟩)) := by
  constructor
  · intro v t h
    match v with
    | none => simp [_normalize_timeline] at h
    | some v =>
        unfold _normalize_timeline at h
        dsimp only at h
        split_ifs at h <;> simp_all
  · intro st v status source h
    have hnorm : normalizeValueForKey "timeline" (some v) = some v := by
      have h0 : normalizeValueForKey "timeline" (some v) =
          (match _normalize_timeline (some v) with
           | some t => some (Value.str t)
           | none => some v) := rfl
      rw [h0, h]
    have hcond : criteriaHasAttr "timeline" = true ∧ (some v : Option Value) ≠ none :=
      ⟨rfl, fun hx => Option.noConfusion hx⟩
    have hsc : set_criterion st "timeline" (some v) status source =
        { st with
            criteria := criteriaSet st.criteria "timeline" (some v)
            criteria_status := dictSet st.criteria_status "timeline" status
            triage_fields :=
              dictSet st.triage_fields "timeline" ⟨some v, status, source, st.now⟩ } := by
      show (let value := normalizeValueForKey "timeline" (some v)
            let st' :=
              if criteriaHasAttr "timeline" ∧ value ≠ none then
                { st with
                    criteria := criteriaSet st.criteria "timeline" value
                    criteria_status := dictSet st.criteria_status "timeline" status }
              else st
            { st' with triage_fields :=
                dictSet st'.triage_fields "timeline" ⟨value, status, source, st'.now⟩ }) = _
      simp only [hnorm]
      rw [if_pos hcond]
    constructor
    · rw [hsc]
      rfl
    · rw [hsc]
      exact lookup_dictSet_self _ _ _

/-- Witness for C7's amended theorem: a recognized phrase lands in the closed
enumeration, and the unrecognized phrase of the counterexample is stored
raw. -/
theorem timeline_normalization_amended_witness :
    _normalize_timeline (some (Value.str "em 30 dias")) = some "30d" ∧
    "30d" ∈ (["30d", "3m", "6m", "12m", "flexivel"] : List String) ∧
    _normalize_timeline (some c7_input) = none ∧
    (set_criterion (freshState "w7") "timeline" (some c7_input) "inferred"
        "llm").criteria.timeline = some c7_input :=
  ⟨rfl, timeline_normalization_amended.1 (some (Value.str "em 30 dias")) "30d" rfl,
    rfl,
    (timeline_normalization_amended.2 (freshState "w7") c7_input "inferred" "llm" rfl).1⟩

/-- Shared lemma: a single non-special update whose normalized value is
non-null and differs from a stored confirmed non-null value records exactly
one conflict with the `{previous, new}` detail and leaves the state untouched
(regardless of the update's own status). -/
theorem apply_updates_single_conflict (st : SessionState) (key : String)
    (p : Update) (prevE : Entry) (ak : String) (nv : Option Value)
    (hkey : key ∉ (["lead_name", "name", "phone", "email", "intent", "operation"] :
      List String))
    (hnorm : _normalize_for_field key p.value = (ak, nv))
    (hprev : List.lookup ak st.triage_fields = some prevE)
    (hconf : prevE.status = "confirmed")
    (hpv : prevE.value ≠ none) (hnv : nv ≠ none) (hne : prevE.value ≠ nv) :
    apply_updates st [(key, some p)] =
      (st, [ak], [(ak, ⟨prevE.value, nv⟩)]) := by
  simp only [List.mem_cons, List.mem_singleton, not_or] at hkey
  obtain ⟨h1, h2, h3, h4, h5, h6⟩ := hkey
  unfold apply_updates apply_updates_go
  rw [if_neg (by exact fun h => h.elim h1 h2)]
  rw [if_neg h3, if_neg h4]
  rw [if_neg (by exact fun h => h.elim h5 h6.1)]
  simp only [hnorm, hprev]
  rw [if_pos ?_]
  · rfl
  · refine ⟨by rw [hconf], hnv, hpv, hne⟩

/-- C1: for every stored confirmed non-null value A of a non-intent,
non-identity field, applying a confirmed update whose normalized value B is
non-null and different from A returns the field among the conflicted fields
with detail previous=A, new=B, and does not mutate the state (so the entry's
value, status, source and turn stamp are untouched). -/
theorem conflict_symmetry (st : SessionState) (key : String) (p : Update)
    (prevE : Entry) (ak : String) (nv : Option Value)
    (hkey : key ∉ (["lead_name", "name", "phone", "email", "intent", "operation"] :
      List String))
    (hstatus : p.status = "confirmed")
    (hnorm : _normalize_for_field key p.value = (ak, nv))
    (hprev : List.lookup ak st.triage_fields = some prevE)
    (hconf : prevE.status = "confirmed")
    (hpv : prevE.value ≠ none) (hnv : nv ≠ none) (hne : prevE.value ≠ nv) :
    apply_updates st [(key, some p)] =
      (st, [ak], [(ak, ⟨prevE.value, nv⟩)]) :=
  apply_updates_single_conflict st key p prevE ak nv hkey hnorm hprev hconf hpv hnv hne

/-- The concrete session of C1's witness: a budget confirmed at 500000. -/
def c1_state : SessionState :=
  (apply_updates (freshState "w1")
    [("budget", some ⟨some (Value.int 500000), "confirmed", "user"⟩)]).1

/-- Witness for C1: budget confirmed at 500000, then a confirmed update to
700000 conflicts with detail previous=500000, new=700000 and leaves the state
unchanged. -/
theorem conflict_symmetry_witness :
    List.lookup "budget" c1_state.triage_fields =
      some ⟨some (Value.int 500000), "confirmed", "user", 0⟩ ∧
    apply_updates c1_state
        [("budget", some ⟨some (Value.int 700000), "confirmed", "user"⟩)] =
      (c1_state, ["budget"], [("budget",
        ⟨some (Value.int 500000), some (Value.int 700000)⟩)]) :=
  ⟨rfl,
    conflict_symmetry c1_state "budget" ⟨some (Value.int 700000), "confirmed", "user"⟩
      ⟨some (Value.int 500000), "confirmed", "user", 0⟩ "budget"
      (some (Value.int 700000)) (by decide) rfl rfl rfl rfl
      (by intro hx; cases hx) (by intro hx; cases hx) (by intro hx; cases hx)⟩

/-- The concrete session of C2's counterexample: a city confirmed as
"Manaira". -/
def c2_state : SessionState :=
  (apply_updates (freshState "s2c")
    [("city", some ⟨some (Value.str "Manaira"), "confirmed", "user"⟩)]).1

/-- C2 counterexample: an update marked `override` for a non-intent field
(city) does NOT win against a stored confirmed different value — it is
recorded as a conflict and the stored value stays "Manaira" (the claim states
the stored value becomes the new value with no conflict). -/
theorem override_supremacy_counterexample :
    List.lookup "city" c2_state.triage_fields =
      some ⟨some (Value.str "Manaira"), "confirmed", "user", 0⟩ ∧
    apply_updates c2_state
        [("city", some ⟨some (Value.str "Tambau"), "override", "user"⟩)] =
      (c2_state, ["city"],
        [("city", ⟨some (Value.str "Manaira"), some (Value.str "Tambau")⟩)]) ∧
    (apply_updates c2_state
        [("city", some ⟨some (Value.str "Tambau"), "override", "user"⟩)]).1.criteria.city =
      some (Value.str "Manaira") :=
  ⟨rfl, rfl, rfl⟩

/-- C2 amended: override supremacy holds only for intent — an intent update
marked `override` with a truthy value always wins with no conflict; for every
other field an update marked `override` is subject to the same
confirmed-conflict rule as any other update: a differing non-null value
against a confirmed non-null stored value records a conflict and does not
mutate state. -/
theorem override_supremacy_amended :
    (∀ (st : SessionState) (p : Update), p.status = "override" →
        truthy p.value = true →
        apply_updates st [("intent", some p)] =
          ({ st with intent := p.value }, [], [])) ∧
    (∀ (st : SessionState) (key : String) (p : Update) (prevE : Entry)
        (ak : String) (nv : Option Value),
        key ∉ (["lead_name", "name", "phone", "email", "intent", "operation"] :
          List String) →
        p.status = "override" →
        _normalize_for_field key p.value = (ak, nv) →
        List.lookup ak st.triage_fields = some prevE →
        prevE.status = "confirmed" → prevE.value ≠ none → nv ≠ none →
        prevE.value ≠ nv →
        apply_updates st [(key, some p)] =
          (st, [ak], [(ak, ⟨prevE.value, nv⟩)])) := by
  constructor
  · intro st p hst htr
    unfold apply_updates apply_updates_go
    rw [if_neg (by decide), if_neg (by decide), if_neg (by decide),
      if_pos (Or.inl rfl), if_pos ⟨hst, htr⟩]
    rfl
  · intro st key p prevE ak nv hkey _ hnorm hprev hconf hpv hnv hne
    exact apply_updates_single_conflict st key p prevE ak nv hkey hnorm hprev
      hconf hpv hnv hne

/-- Witness for C2's amended theorem: an intent override wins, and the city
override of the counterexample conflicts. -/
theorem override_supremacy_amended_witness :
    ("override" : String) = "override" ∧
    truthy (some (Value.str "alugar")) = true ∧
    apply_updates { freshState "w2" with intent := some (Value.str "comprar") }
        [("intent", some ⟨some (Value.str "alugar"), "override", "user"⟩)] =
      ({ freshState "w2" with intent := some (Value.str "alugar") }, [], []) ∧
    apply_updates c2_state
        [("city", some ⟨some (Value.str "Tambau"), "override", "user"⟩)] =
      (c2_state, ["city"],
        [("city", ⟨some (Value.str "Manaira"), some (Value.str "Tambau")⟩)]) := by
  refine ⟨rfl, rfl, ?_, ?_⟩
  · exact override_supremacy_amended.1
      { freshState "w2" with intent := some (Value.str "comprar") }
      ⟨some (Value.str "alugar"), "override", "user"⟩ rfl rfl
  · exact override_supremacy_amended.2 c2_state "city"
      ⟨some (Value.str "Tambau"), "override", "user"⟩
      ⟨some (Value.str "Manaira"), "confirmed", "user", 0⟩ "city"
      (some (Value.str "Tambau")) (by decide) rfl rfl rfl rfl
      (by intro hx; cases hx) (by intro hx; cases hx) (by decide)

theorem nb_score_lower (a : Agent) (lead : SessionState) :
    (nb_score a lead).1 ≥ -10 := by
  unfold nb_score
  split <;> split_ifs <;> norm_num

theorem micro_score_lower (a : Agent) (lead : SessionState) :
    (micro_score a lead).1 ≥ 0 := by
  unfold micro_score
  split
  · split_ifs <;> norm_num
  · norm_num

theorem price_score_lower (a : Agent) (lead : SessionState) :
    (price_score a lead).1 ≥ -15 := by
  unfold price_score
  split
  · split_ifs <;> norm_num
  · norm_num

theorem tier_score_lower (a : Agent) (lead : SessionState) :
    (tier_score a lead).1 ≥ 0 := by
  unfold tier_score
  dsimp only
  split_ifs <;> norm_num

theorem alto_padrao_score_lower (a : Agent) (lead : SessionState) :
    (alto_padrao_score a lead).1 ≥ 0 := by
  unfold alto_padrao_score
  split_ifs <;> norm_num

theorem familia_score_lower (a : Agent) (lead : SessionState) :
    (familia_score a lead).1 ≥ 0 := by
  unfold familia_score
  split_ifs <;> norm_num

theorem pet_score_lower (a : Agent) (lead : SessionState) :
    (pet_score a lead).1 ≥ 0 := by
  unfold pet_score
  split_ifs <;> norm_num

/-- The soft score of an agent is bounded below by -25 (the worst case is a
neighborhood mismatch plus an out-of-band price), so a surviving agent can
never reach the -1000 exclusion sentinel through soft scoring. -/
theorem score_agent_base_lower (a : Agent) (lead : SessionState) :
    (score_agent_base a lead).1 ≥ -25 := by
  have h1 := nb_score_lower a lead
  have h2 := micro_score_lower a lead
  have h3 := price_score_lower a lead
  have h4 := tier_score_lower a lead
  have h5 := alto_padrao_score_lower a lead
  have h6 := familia_score_lower a lead
  have h7 := pet_score_lower a lead
  show (nb_score a lead).1 + (micro_score a lead).1 + (price_score a lead).1 +
      (tier_score a lead).1 + (alto_padrao_score a lead).1 +
      (familia_score a lead).1 + (pet_score a lead).1 ≥ -25
  omega

/-- A hard-filtered agent always scores the -1000 exclusion sentinel. -/
theorem hard_filtered_scores_bottom (a : Agent) (lead : SessionState)
    (stats : StatsMap) (priority : Bool) (h : hard_filtered a lead = true) :
    (score_agent a lead stats priority).1 = -1000 := by
  unfold score_agent score_agent.score_agent_checked
  split
  · rfl
  · split <;>
      first
        | rfl
        | (split_ifs <;> simp_all)

/-- With `priority=false`, an agent at or above its daily capacity always
scores the -1000 exclusion sentinel. -/
theorem at_capacity_scores_bottom (a : Agent) (lead : SessionState)
    (stats : StatsMap)
    (hcap : (statsGet stats a.id).assigned_today ≥ a.daily_capacity) :
    (score_agent a lead stats false).1 = -1000 := by
  unfold score_agent score_agent.score_agent_checked
  split
  · rfl
  · split <;>
      first
        | rfl
        | (split_ifs <;> simp_all)

/-- A surviving score (` > -1000`) with `priority=false` implies the agent was
under its daily capacity in the stats used for scoring. -/
theorem score_survivor_under_capacity (a : Agent) (lead : SessionState)
    (stats : StatsMap)
    (h : (score_agent a lead stats false).1 > -1000) :
    (statsGet stats a.id).assigned_today < a.daily_capacity := by
  by_contra hcap
  push_neg at hcap
  have := at_capacity_scores_bottom a lead stats hcap
  omega

/-- `pickBest` on a non-empty candidate list returns an element of it. -/
theorem pickBest_some_of_ne_nil (stats : StatsMap)
    (l : List (Agent × Int × List String)) (h : l ≠ []) :
    ∃ y, pickBest stats l = some y ∧ y ∈ l := by
  match l with
  | [] => exact absurd rfl h
  | x :: xs =>
      refine ⟨_, rfl, ?_⟩
      exact foldl_pick_mem (fun best y => keyLt (routeKey stats y) (routeKey stats best)) x xs

/-- Every result of `_fallback_agent` is marked with a fallback strategy. -/
theorem fallback_strategy_not_score_based (agents : List Agent)
    (stats : StatsMap) (lead : SessionState) (allow_mismatch : Bool)
    (now : String) (r : RoutingResult) (stats2 : StatsMap)
    (h : _fallback_agent agents stats lead allow_mismatch now = some (r, stats2)) :
    r.strategy ≠ "score_based" ∧ r.fallback = true := by
  unfold _fallback_agent at h
  dsimp only at h
  split at h
  · injection h with h2
    rw [Prod.mk.injEq] at h2
    obtain ⟨h3, _⟩ := h2
    subst h3
    refine ⟨?_, rfl⟩
    show ("fallback_generalista" : String) ≠ "score_based"
    decide
  · split at h
    · split at h
      · exact absurd h (by simp)
      · injection h with h2
        rw [Prod.mk.injEq] at h2
        obtain ⟨h3, _⟩ := h2
        subst h3
        refine ⟨?_, rfl⟩
        dsimp only
        split
        · decide
        · decide
    · exact absurd h (by simp)

/-- Reduction of `choose_agent` on the score-based path: when the scored list
has a best pick, the result is that agent with strategy `score_based` and its
counter bumped. -/
theorem choose_agent_score_path (agents : List Agent) (lead : SessionState)
    (stats : StatsMap) (priority : Bool) (now : String)
    (best : Agent × Int × List String)
    (hempty : agents.isEmpty = false)
    (hpick : pickBest (statsFilter agents stats)
        (scored_candidates agents lead (statsFilter agents stats) priority) =
      some best) :
    choose_agent agents lead stats priority now =
      some (⟨best.1.id, best.1.name, best.1.whatsapp, best.2.1, best.2.2,
          "score_based",
          (scored_candidates agents lead (statsFilter agents stats) priority).length,
          false⟩,
        bumpStats (statsFilter agents stats) best.1.id now) := by
  unfold choose_agent
  rw [if_neg (by simp [hempty])]
  dsimp only
  rw [hpick]

/-- Membership characterisation of `scored_candidates`. -/
theorem scored_candidates_mem (agents : List Agent) (lead : SessionState)
    (stats : StatsMap) (priority : Bool) (y : Agent × Int × List String)
    (h : y ∈ scored_candidates agents lead stats priority) :
    y.1 ∈ agents ∧ (score_agent y.1 lead stats priority).1 > -1000 ∧
      y = (y.1, (score_agent y.1 lead stats priority).1,
        (score_agent y.1 lead stats priority).2) := by
  obtain ⟨a, ha, hfa⟩ := List.mem_filterMap.mp h
  dsimp only at hfa
  by_cases hc : (score_agent a lead stats priority).1 > -1000
  · rw [if_pos hc] at hfa
    obtain rfl := Option.some_inj.mp hfa
    exact ⟨ha, hc, rfl⟩
  · rw [if_neg hc] at hfa
    exact absurd hfa (by simp)

/-- An agent that survives scoring is in the scored list. -/
theorem scored_candidates_of_survivor (agents : List Agent)
    (lead : SessionState) (stats : StatsMap) (priority : Bool) (b : Agent)
    (hb : b ∈ agents) (hs : (score_agent b lead stats priority).1 > -1000) :
    (b, (score_agent b lead stats priority).1,
        (score_agent b lead stats priority).2) ∈
      scored_candidates agents lead stats priority := by
  apply List.mem_filterMap.mpr
  refine ⟨b, hb, ?_⟩
  dsimp only
  rw [if_pos hs]

/-- The lone incompatible agent of C8's concrete example: the only coverage
is "Riverside". -/
def c8_agent : Agent :=
  ⟨"r1", "Riv", "w", true, ["buy", "rent"], ["Riverside"], [], 0, 999999999,
    [], 10, "standard"⟩

/-- The lead of C8's concrete example: wants "Downtown". -/
def c8_lead : SessionState :=
  { freshState "lead8" with criteria := { neighborhood := some (Value.str "Downtown") } }

/-- C8: whenever some agent of the roster survives scoring (a compatible
assignable alternative exists), `choose_agent` answers through the score-based
path and the returned agent is never one excluded by the neighborhood hard
filter; and on the concrete roster whose only coverage is a different
neighborhood with no generalist, assignment returns none. -/
theorem router_hard_filter :
    (∀ (agents : List Agent) (lead : SessionState) (stats : StatsMap)
        (priority : Bool) (now : String),
        (∃ b ∈ agents,
            (score_agent b lead (statsFilter agents stats) priority).1 > -1000) →
        ∃ (r : RoutingResult) (stats2 : StatsMap),
          choose_agent agents lead stats priority now = some (r, stats2) ∧
            r.strategy = "score_based" ∧
            ∃ a ∈ agents, a.id = r.agent_id ∧ a.name = r.agent_name ∧
              hard_filtered a lead = false) ∧
    choose_agent [c8_agent] c8_lead [] false "t0" = none := by
  constructor
  · intro agents lead stats priority now hex
    obtain ⟨b, hb, hbs⟩ := hex
    have hne : agents ≠ [] := List.ne_nil_of_mem hb
    have hempty : agents.isEmpty = false := by
      cases agents
      · exact absurd rfl hne
      · rfl
    have hmem := scored_candidates_of_survivor agents lead
      (statsFilter agents stats) priority b hb hbs
    have hscne : scored_candidates agents lead (statsFilter agents stats) priority ≠ [] :=
      List.ne_nil_of_mem hmem
    obtain ⟨best, hpick, hbestmem⟩ :=
      pickBest_some_of_ne_nil (statsFilter agents stats) _ hscne
    obtain ⟨hain, hgt, _⟩ := scored_candidates_mem agents lead
      (statsFilter agents stats) priority best hbestmem
    refine ⟨_, _, choose_agent_score_path agents lead stats priority now best
      hempty hpick, rfl, best.1, hain, rfl, rfl, ?_⟩
    by_contra hhf
    rw [Bool.not_eq_false] at hhf
    have := hard_filtered_scores_bottom best.1 lead (statsFilter agents stats)
      priority hhf
    omega
  · rfl

/-- Witness for C8: on a roster with one hard-filtered agent and one wildcard
generalist, the generalist survives scoring, so assignment is score-based and
avoids the hard-filtered agent. -/
theorem router_hard_filter_witness :
    (∃ b ∈ [c8_agent, ⟨"g2", "Gen", "w2", true, ["buy", "rent"], ["*"], [], 0,
        999999999, [], 10, "standard"⟩],
        (score_agent b c8_lead
          (statsFilter [c8_agent, ⟨"g2", "Gen", "w2", true, ["buy", "rent"],
            ["*"], [], 0, 999999999, [], 10, "standard"⟩] []) false).1 > -1000) ∧
    (∃ (r : RoutingResult) (stats2 : StatsMap),
        choose_agent [c8_agent, ⟨"g2", "Gen", "w2", true, ["buy", "rent"], ["*"],
            [], 0, 999999999, [], 10, "standard"⟩] c8_lead [] false "t0" =
          some (r, stats2) ∧
          r.strategy = "score_based" ∧
          ∃ a ∈ [c8_agent, ⟨"g2", "Gen", "w2", true, ["buy", "rent"], ["*"], [],
              0, 999999999, [], 10, "standard"⟩],
            a.id = r.agent_id ∧ a.name = r.agent_name ∧
              hard_filtered a c8_lead = false) := by
  have hex : ∃ b ∈ [c8_agent, (⟨"g2", "Gen", "w2", true, ["buy", "rent"], ["*"],
      [], 0, 999999999, [], 10, "standard"⟩ : Agent)],
      (score_agent b c8_lead
        (statsFilter [c8_agent, ⟨"g2", "Gen", "w2", true, ["buy", "rent"], ["*"],
          [], 0, 999999999, [], 10, "standard"⟩] []) false).1 > -1000 := by
    refine ⟨⟨"g2", "Gen", "w2", true, ["buy", "rent"], ["*"], [], 0, 999999999,
      [], 10, "standard"⟩, by decide, by decide⟩
  exact ⟨hex, router_hard_filter.1 _ c8_lead [] false "t0" hex⟩

/-- `pickBest` only returns elements of its candidate list. -/
theorem pickBest_mem (stats : StatsMap) (l : List (Agent × Int × List String))
    (y : Agent × Int × List String) (h : pickBest stats l = some y) : y ∈ l := by
  match l with
  | [] => cases h
  | x :: xs =>
      obtain rfl := Option.some_inj.mp h
      exact foldl_pick_mem (fun best z => keyLt (routeKey stats z) (routeKey stats best)) x xs

/-- Bumping an agent's counter increments it by one and stamps the time. -/
theorem statsGet_bumpStats_self (stats : StatsMap) (id : String) (now : String) :
    statsGet (bumpStats stats id now) id =
      ⟨(statsGet stats id).assigned_today + 1, some now⟩ := by
  unfold bumpStats statsGet
  rw [lookup_dictSet_self]
  rfl

/-- The lone wildcard agent of C3's counterexample, with daily capacity 1. -/
def c3_agent : Agent :=
  ⟨"g1", "Gen", "w", true, ["buy"], ["*"], [], 0, 999999999, [], 1, "standard"⟩

/-- Stats already at capacity for C3's counterexample. -/
def c3_stats : StatsMap := [("g1", ⟨1, some "2026-01-01T00:00:00Z"⟩)]

/-- C3 counterexample: with `priority=false`, the generalist fallback path of
the router assigns an agent already at its daily capacity and pushes its
counter past the capacity (the claim states this can only happen with
`priority=true`). -/
theorem router_capacity_counterexample :
    c3_agent.daily_capacity = 1 ∧
    (statsGet c3_stats "g1").assigned_today = 1 ∧
    choose_agent [c3_agent] (freshState "lead3") c3_stats false
        "2026-02-05T00:00:00Z" =
      some (⟨"g1", "Gen", "w", 0, ["fallback_generalista"],
          "fallback_generalista", 1, true⟩,
        [("g1", ⟨2, some "2026-02-05T00:00:00Z"⟩)]) ∧
    (2 : Int) > c3_agent.daily_capacity :=
  ⟨rfl, rfl, rfl, by decide⟩

/-- C3 amended: on the score-based path with `priority=false` an agent at or
above capacity never survives scoring — the chosen agent is strictly under
capacity and its bumped counter stays at most the capacity; and with
`priority=true` an at-capacity agent (that passes the other filters) is kept
with a -5 penalty and the override reason instead of being excluded.  The
fallback paths check no capacity (see the counterexample). -/
theorem router_capacity_amended :
    (∀ (agents : List Agent) (lead : SessionState) (stats : StatsMap)
        (now : String) (r : RoutingResult) (stats2 : StatsMap),
        choose_agent agents lead stats false now = some (r, stats2) →
        r.strategy = "score_based" →
        ∃ a ∈ agents, r.agent_id = a.id ∧
          (statsGet (statsFilter agents stats) a.id).assigned_today <
            a.daily_capacity ∧
          statsGet stats2 a.id =
            ⟨(statsGet (statsFilter agents stats) a.id).assigned_today + 1,
              some now⟩ ∧
          (statsGet stats2 a.id).assigned_today ≤ a.daily_capacity) ∧
    (∀ (a : Agent) (lead : SessionState) (stats : StatsMap),
        a.active = true →
        (∀ t, _get_intent_type lead.intent = some t → a.ops.contains t = true) →
        hard_filtered a lead = false →
        (statsGet stats a.id).assigned_today ≥ a.daily_capacity →
        score_agent a lead stats true =
          ((score_agent_base a lead).1 - 5,
            (score_agent_base a lead).2 ++
              ["priority_override_capacity_" ++
                toString (statsGet stats a.id).assigned_today ++ "/" ++
                toString a.daily_capacity]) ∧
        (score_agent a lead stats true).1 > -1000) := by
  constructor
  · intro agents lead stats now r stats2 hch hstrat
    unfold choose_agent at hch
    split at hch
    · exact absurd hch (by simp)
    · dsimp only at hch
      split at hch
      · have := fallback_strategy_not_score_based _ _ _ _ _ _ _ hch
        exact absurd hstrat this.1
      · next best heq =>
          injection hch with h2
          rw [Prod.mk.injEq] at h2
          obtain ⟨h3, h4⟩ := h2
          have hbestmem := pickBest_mem _ _ _ heq
          obtain ⟨hain, hgt, _⟩ := scored_candidates_mem agents lead
            (statsFilter agents stats) false best hbestmem
          have hcap := score_survivor_under_capacity best.1 lead
            (statsFilter agents stats) hgt
          refine ⟨best.1, hain, ?_, hcap, ?_, ?_⟩
          · rw [← h3]
          · rw [← h4]
            exact statsGet_bumpStats_self _ _ _
          · rw [← h4, statsGet_bumpStats_self]
            dsimp only
            omega
  · intro a lead stats hact hop hnb hcap
    have hmain : score_agent a lead stats true =
        ((score_agent_base a lead).1 - 5,
          (score_agent_base a lead).2 ++
            ["priority_override_capacity_" ++
              toString (statsGet stats a.id).assigned_today ++ "/" ++
              toString a.daily_capacity]) := by
      unfold score_agent score_agent.score_agent_checked
      rw [if_neg (fun hx => hx hact)]
      rcases hgit : _get_intent_type lead.intent with _ | t <;> dsimp only
      · rw [if_neg (by simp [hnb])]
        rw [if_neg (by simp)]
        rw [if_pos ⟨rfl, hcap⟩]
      · rw [if_neg (fun hx => hx (hop t hgit))]
        rw [if_neg (by simp [hnb])]
        rw [if_neg (by simp)]
        rw [if_pos ⟨rfl, hcap⟩]
    refine ⟨hmain, ?_⟩
    rw [hmain]
    have := score_agent_base_lower a lead
    dsimp only
    omega

/-- A coverage-free active agent used by C3's witness. -/
def w3_agent : Agent :=
  ⟨"a1", "A", "w", true, [], [], [], 0, 999999999, [], 10, "standard"⟩

/-- Witness for C3's amended theorem: a concrete score-based assignment whose
counter stays within capacity, and the at-capacity priority keep of the
counterexample agent. -/
theorem router_capacity_amended_witness :
    choose_agent [w3_agent] (freshState "w3l") [] false "n0" =
      some (⟨"a1", "A", "w", 5, ["generalista_no_neighborhood"], "score_based",
          1, false⟩,
        [("a1", ⟨1, some "n0"⟩)]) ∧
    (∃ a ∈ [w3_agent],
        (⟨"a1", "A", "w", 5, ["generalista_no_neighborhood"], "score_based",
          1, false⟩ : RoutingResult).agent_id = a.id ∧
        (statsGet (statsFilter [w3_agent] []) a.id).assigned_today <
          a.daily_capacity ∧
        statsGet [("a1", ⟨1, some "n0"⟩)] a.id =
          ⟨(statsGet (statsFilter [w3_agent] []) a.id).assigned_today + 1,
            some "n0"⟩ ∧
        (statsGet [("a1", ⟨1, some "n0"⟩)] a.id).assigned_today ≤
          a.daily_capacity) ∧
    c3_agent.active = true ∧
    hard_filtered c3_agent (freshState "w3l") = false ∧
    (statsGet c3_stats c3_agent.id).assigned_today ≥ c3_agent.daily_capacity ∧
    (score_agent c3_agent (freshState "w3l") c3_stats true).1 > -1000 := by
  refine ⟨rfl, ?_, rfl, rfl, by decide, ?_⟩
  · exact router_capacity_amended.1 [w3_agent] (freshState "w3l") [] "n0" _ _
      rfl rfl
  · exact (router_capacity_amended.2 c3_agent (freshState "w3l") c3_stats rfl
      (fun t h => by cases h) rfl (by decide)).2

/-- The transition of claim C5: resolving a critical field to a confirmed
value (`intent` is a plain state attribute; every other critical field is
written through `set_criterion` with a confirmed user value). -/
def resolve_critical (st : SessionState) (f : String) (v : Value) : SessionState :=
  if f = "intent" then { st with intent := some v }
  else set_criterion st f (some v) "confirmed" "user"

/-- Whether a critical field counts as missing for the quality scorer: the
intent attribute is falsy, or the triage field is absent or holds a null
value. -/
def quality_missing (st : SessionState) (f : String) : Bool :=
  if f = "intent" then ¬truthy st.intent
  else
    match List.lookup f st.triage_fields with
    | some e => e.value = none
    | none => true

/-- The state written by `set_criterion` for a criteria-attribute key whose
normalized value `some w` is non-null. -/
def qset (st : SessionState) (f : String) (w : Value) : SessionState :=
  { st with
      criteria := criteriaSet st.criteria f (some w)
      criteria_status := dictSet st.criteria_status f "confirmed"
      triage_fields := dictSet st.triage_fields f ⟨some w, "confirmed", "user", st.now⟩ }

/-- The state written by `set_criterion` when normalization nulls the value:
only the triage field is written (with a null value). -/
def qset_none (st : SessionState) (f : String) : SessionState :=
  { st with
      triage_fields := dictSet st.triage_fields f ⟨none, "confirmed", "user", st.now⟩ }

theorem qite_nonpos {P : Prop} [Decidable P] {c : Int} (hc : c ≤ 0) :
    (if P then c else 0) ≤ 0 := by split_ifs <;> omega

theorem qite_ge {P : Prop} [Decidable P] {c : Int} (hc : c ≤ 0) :
    c ≤ (if P then c else 0) := by split_ifs <;> omega

theorem qite_nonneg {P : Prop} [Decidable P] {c : Int} (hc : 0 ≤ c) :
    0 ≤ (if P then c else 0) := by split_ifs <;> omega

theorem qite_le {P : Prop} [Decidable P] {c : Int} (hc : 0 ≤ c) :
    (if P then c else 0) ≤ c := by split_ifs <;> omega

theorem critPenalty_eq_of_lookup (st st' : SessionState) (g : String)
    (hg : g ≠ "intent")
    (h : List.lookup g st'.triage_fields = List.lookup g st.triage_fields) :
    critPenalty st' g = critPenalty st g := by
  unfold critPenalty
  rw [if_neg hg, if_neg hg, h]

theorem critPenalty_missing (st : SessionState) (g : String) (hg : g ≠ "intent")
    (hmiss : quality_missing st g = true) : critPenalty st g = -15 := by
  unfold quality_missing at hmiss
  rw [if_neg hg] at hmiss
  unfold critPenalty
  rw [if_neg hg]
  cases hl : List.lookup g st.triage_fields with
  | none => rfl
  | some e =>
      rw [hl] at hmiss
      have he : e.value = none := by simpa using hmiss
      simp [he]

theorem micro_ambiguous_congr (st st' : SessionState)
    (h : List.lookup "micro_location" st'.triage_fields =
      List.lookup "micro_location" st.triage_fields) :
    micro_ambiguous_fires st' = micro_ambiguous_fires st := by
  unfold micro_ambiguous_fires
  rw [h]

theorem micro_bonus_congr (st st' : SessionState)
    (h : List.lookup "micro_location" st'.triage_fields =
      List.lookup "micro_location" st.triage_fields) :
    micro_bonus_fires st' = micro_bonus_fires st := by
  unfold micro_bonus_fires
  rw [h]

theorem payment_congr (st st' : SessionState) (hi : st'.intent = st.intent)
    (h : List.lookup "payment_type" st'.triage_fields =
      List.lookup "payment_type" st.triage_fields) :
    payment_missing_fires st' = payment_missing_fires st := by
  unfold payment_missing_fires
  rw [hi, h]

theorem qualityScoreRaw_expand (st : SessionState) :
    qualityScoreRaw st =
      100 + critPenalty st "intent" + critPenalty st "city" +
      critPenalty st "neighborhood" + critPenalty st "property_type" +
      critPenalty st "bedrooms" + critPenalty st "parking" +
      critPenalty st "budget" + critPenalty st "timeline" +
      ((if micro_ambiguous_fires st then (-10 : Int) else 0) +
        (if condo_penalty_fires st then (-8 : Int) else 0) +
        (if payment_missing_fires st then (-5 : Int) else 0)) +
      (if unresolved_conflict_fires st then (-20 : Int) else 0) +
      ((if neighborhood_without_city_fires st then (-10 : Int) else 0) +
        (if budget_inconsistent_fires st then (-15 : Int) else 0) +
        (if timeline_missing_urgency_fires st then (-5 : Int) else 0)) +
      ((if micro_bonus_fires st then (5 : Int) else 0) +
        (if suites_bonus_fires st then (3 : Int) else 0) +
        (if name_bonus_fires st then (2 : Int) else 0) +
        (if timeline_bonus_fires st then (3 : Int) else 0)) := by
  unfold qualityScoreRaw qualityCriticalDelta dealbreakerDelta conflictDelta
    consistencyDelta bonusDelta CRITICAL_ORDER
  simp only [List.map_cons, List.map_nil, List.sum_cons, List.sum_nil]
  ring

/-! Per-field monotonicity helpers for claim C5, one per critical field. -/

theorem raw_le_qset_city (st : SessionState) (w : Value)
    (hmiss : quality_missing st "city" = true) :
    qualityScoreRaw st ≤ qualityScoreRaw (qset st "city" w) := by
  have hlook : ∀ g : String, g ≠ "city" →
      List.lookup g (qset st "city" w).triage_fields =
        List.lookup g st.triage_fields :=
    fun g hg => lookup_dictSet_ne _ _ _ _ hg
  have hself : List.lookup "city" (qset st "city" w).triage_fields =
      some ⟨some w, "confirmed", "user", st.now⟩ := lookup_dictSet_self _ _ _
  have hCb : critPenalty st "city" = -15 := critPenalty_missing st _ (by decide) hmiss
  have hCa : critPenalty (qset st "city" w) "city" = 0 := by
    unfold critPenalty
    rw [if_neg (by decide), hself]
    rfl
  have e1 : critPenalty (qset st "city" w) "intent" = critPenalty st "intent" := rfl
  have e2 : critPenalty (qset st "city" w) "neighborhood" = critPenalty st "neighborhood" :=
    critPenalty_eq_of_lookup st _ _ (by decide) (hlook _ (by decide))
  have e3 : critPenalty (qset st "city" w) "property_type" = critPenalty st "property_type" :=
    critPenalty_eq_of_lookup st _ _ (by decide) (hlook _ (by decide))
  have e4 : critPenalty (qset st "city" w) "bedrooms" = critPenalty st "bedrooms" :=
    critPenalty_eq_of_lookup st _ _ (by decide) (hlook _ (by decide))
  have e5 : critPenalty (qset st "city" w) "parking" = critPenalty st "parking" :=
    critPenalty_eq_of_lookup st _ _ (by decide) (hlook _ (by decide))
  have e6 : critPenalty (qset st "city" w) "budget" = critPenalty st "budget" :=
    critPenalty_eq_of_lookup st _ _ (by decide) (hlook _ (by decide))
  have e7 : critPenalty (qset st "city" w) "timeline" = critPenalty st "timeline" :=
    critPenalty_eq_of_lookup st _ _ (by decide) (hlook _ (by decide))
  have f8 := micro_ambiguous_congr st (qset st "city" w) (hlook _ (by decide))
  have f14 := micro_bonus_congr st (qset st "city" w) (hlook _ (by decide))
  have f10 := payment_congr st (qset st "city" w) rfl (hlook _ (by decide))
  have f11 : unresolved_conflict_fires (qset st "city" w) = unresolved_conflict_fires st := rfl
  have f_condo : condo_penalty_fires (qset st "city" w) = condo_penalty_fires st := rfl
  have f_binc : budget_inconsistent_fires (qset st "city" w) = budget_inconsistent_fires st := rfl
  have f_urg : timeline_missing_urgency_fires (qset st "city" w) = timeline_missing_urgency_fires st := rfl
  have f_suites : suites_bonus_fires (qset st "city" w) = suites_bonus_fires st := rfl
  have f_name : name_bonus_fires (qset st "city" w) = name_bonus_fires st := rfl
  have f_tbonus : timeline_bonus_fires (qset st "city" w) = timeline_bonus_fires st := rfl
  rw [qualityScoreRaw_expand st, qualityScoreRaw_expand (qset st "city" w)]
  simp only [e1, e2, e3, e4, e5, e6, e7, f8, f14, f10, f11, f_condo, f_binc, f_urg, f_suites, f_name, f_tbonus, hCb, hCa]
  have b1 : (-10 : Int) ≤
      (if neighborhood_without_city_fires (qset st "city" w) then (-10 : Int) else 0) :=
    qite_ge (by norm_num)
  have b2 : (if neighborhood_without_city_fires st then (-10 : Int) else 0) ≤ 0 :=
    qite_nonpos (by norm_num)
  linarith [b1, b2]

theorem raw_le_qset_neighborhood (st : SessionState) (w : Value)
    (hmiss : quality_missing st "neighborhood" = true) :
    qualityScoreRaw st ≤ qualityScoreRaw (qset st "neighborhood" w) := by
  have hlook : ∀ g : String, g ≠ "neighborhood" →
      List.lookup g (qset st "neighborhood" w).triage_fields =
        List.lookup g st.triage_fields :=
    fun g hg => lookup_dictSet_ne _ _ _ _ hg
  have hself : List.lookup "neighborhood" (qset st "neighborhood" w).triage_fields =
      some ⟨some w, "confirmed", "user", st.now⟩ := lookup_dictSet_self _ _ _
  have hCb : critPenalty st "neighborhood" = -15 := critPenalty_missing st _ (by decide) hmiss
  have hCa : critPenalty (qset st "neighborhood" w) "neighborhood" = 0 := by
    unfold critPenalty
    rw [if_neg (by decide), hself]
    rfl
  have e1 : critPenalty (qset st "neighborhood" w) "intent" = critPenalty st "intent" := rfl
  have e2 : critPenalty (qset st "neighborhood" w) "city" = critPenalty st "city" :=
    critPenalty_eq_of_lookup st _ _ (by decide) (hlook _ (by decide))
  have e3 : critPenalty (qset st "neighborhood" w) "property_type" = critPenalty st "property_type" :=
    critPenalty_eq_of_lookup st _ _ (by decide) (hlook _ (by decide))
  have e4 : critPenalty (qset st "neighborhood" w) "bedrooms" = critPenalty st "bedrooms" :=
    critPenalty_eq_of_lookup st _ _ (by decide) (hlook _ (by decide))
  have e5 : critPenalty (qset st "neighborhood" w) "parking" = critPenalty st "parking" :=
    critPenalty_eq_of_lookup st _ _ (by decide) (hlook _ (by decide))
  have e6 : critPenalty (qset st "neighborhood" w) "budget" = critPenalty st "budget" :=
    critPenalty_eq_of_lookup st _ _ (by decide) (hlook _ (by decide))
  have e7 : critPenalty (qset st "neighborhood" w) "timeline" = critPenalty st "timeline" :=
    critPenalty_eq_of_lookup st _ _ (by decide) (hlook _ (by decide))
  have f8 := micro_ambiguous_congr st (qset st "neighborhood" w) (hlook _ (by decide))
  have f14 := micro_bonus_congr st (qset st "neighborhood" w) (hlook _ (by decide))
  have f10 := payment_congr st (qset st "neighborhood" w) rfl (hlook _ (by decide))
  have f11 : unresolved_conflict_fires (qset st "neighborhood" w) = unresolved_conflict_fires st := rfl
  have f_condo : condo_penalty_fires (qset st "neighborhood" w) = condo_penalty_fires st := rfl
  have f_binc : budget_inconsistent_fires (qset st "neighborhood" w) = budget_inconsistent_fires st := rfl
  have f_urg : timeline_missing_urgency_fires (qset st "neighborhood" w) = timeline_missing_urgency_fires st := rfl
  have f_suites : suites_bonus_fires (qset st "neighborhood" w) = suites_bonus_fires st := rfl
  have f_name : name_bonus_fires (qset st "neighborhood" w) = name_bonus_fires st := rfl
  have f_tbonus : timeline_bonus_fires (qset st "neighborhood" w) = timeline_bonus_fires st := rfl
  rw [qualityScoreRaw_expand st, qualityScoreRaw_expand (qset st "neighborhood" w)]
  simp only [e1, e2, e3, e4, e5, e6, e7, f8, f14, f10, f11, f_condo, f_binc, f_urg, f_suites, f_name, f_tbonus, hCb, hCa]
  have b1 : (-10 : Int) ≤
      (if neighborhood_without_city_fires (qset st "neighborhood" w) then (-10 : Int) else 0) :=
    qite_ge (by norm_num)
  have b2 : (if neighborhood_without_city_fires st then (-10 : Int) else 0) ≤ 0 :=
    qite_nonpos (by norm_num)
  linarith [b1, b2]

theorem raw_le_qset_property_type (st : SessionState) (w : Value)
    (hmiss : quality_missing st "property_type" = true) :
    qualityScoreRaw st ≤ qualityScoreRaw (qset st "property_type" w) := by
  have hlook : ∀ g : String, g ≠ "property_type" →
      List.lookup g (qset st "property_type" w).triage_fields =
        List.lookup g st.triage_fields :=
    fun g hg => lookup_dictSet_ne _ _ _ _ hg
  have hself : List.lookup "property_type" (qset st "property_type" w).triage_fields =
      some ⟨some w, "confirmed", "user", st.now⟩ := lookup_dictSet_self _ _ _
  have hCb : critPenalty st "property_type" = -15 := critPenalty_missing st _ (by decide) hmiss
  have hCa : critPenalty (qset st "property_type" w) "property_type" = 0 := by
    unfold critPenalty
    rw [if_neg (by decide), hself]
    rfl
  have e1 : critPenalty (qset st "property_type" w) "intent" = critPenalty st "intent" := rfl
  have e2 : critPenalty (qset st "property_type" w) "city" = critPenalty st "city" :=
    critPenalty_eq_of_lookup st _ _ (by decide) (hlook _ (by decide))
  have e3 : critPenalty (qset st "property_type" w) "neighborhood" = critPenalty st "neighborhood" :=
    critPenalty_eq_of_lookup st _ _ (by decide) (hlook _ (by decide))
  have e4 : critPenalty (qset st "property_type" w) "bedrooms" = critPenalty st "bedrooms" :=
    critPenalty_eq_of_lookup st _ _ (by decide) (hlook _ (by decide))
  have e5 : critPenalty (qset st "property_type" w) "parking" = critPenalty st "parking" :=
    critPenalty_eq_of_lookup st _ _ (by decide) (hlook _ (by decide))
  have e6 : critPenalty (qset st "property_type" w) "budget" = critPenalty st "budget" :=
    critPenalty_eq_of_lookup st _ _ (by decide) (hlook _ (by decide))
  have e7 : critPenalty (qset st "property_type" w) "timeline" = critPenalty st "timeline" :=
    critPenalty_eq_of_lookup st _ _ (by decide) (hlook _ (by decide))
  have f8 := micro_ambiguous_congr st (qset st "property_type" w) (hlook _ (by decide))
  have f14 := micro_bonus_congr st (qset st "property_type" w) (hlook _ (by decide))
  have f10 := payment_congr st (qset st "property_type" w) rfl (hlook _ (by decide))
  have f11 : unresolved_conflict_fires (qset st "property_type" w) = unresolved_conflict_fires st := rfl
  have f_condo : condo_penalty_fires (qset st "property_type" w) = condo_penalty_fires st := rfl
  have f_binc : budget_inconsistent_fires (qset st "property_type" w) = budget_inconsistent_fires st := rfl
  have f_urg : timeline_missing_urgency_fires (qset st "property_type" w) = timeline_missing_urgency_fires st := rfl
  have f_suites : suites_bonus_fires (qset st "property_type" w) = suites_bonus_fires st := rfl
  have f_name : name_bonus_fires (qset st "property_type" w) = name_bonus_fires st := rfl
  have f_tbonus : timeline_bonus_fires (qset st "property_type" w) = timeline_bonus_fires st := rfl
  have f_nbc : neighborhood_without_city_fires (qset st "property_type" w) = neighborhood_without_city_fires st := rfl
  rw [qualityScoreRaw_expand st, qualityScoreRaw_expand (qset st "property_type" w)]
  simp only [e1, e2, e3, e4, e5, e6, e7, f8, f14, f10, f11, f_condo, f_binc, f_urg, f_suites, f_name, f_tbonus, f_nbc, hCb, hCa]
  linarith

theorem raw_le_qset_bedrooms (st : SessionState) (w : Value)
    (hmiss : quality_missing st "bedrooms" = true) :
    qualityScoreRaw st ≤ qualityScoreRaw (qset st "bedrooms" w) := by
  have hlook : ∀ g : String, g ≠ "bedrooms" →
      List.lookup g (qset st "bedrooms" w).triage_fields =
        List.lookup g st.triage_fields :=
    fun g hg => lookup_dictSet_ne _ _ _ _ hg
  have hself : List.lookup "bedrooms" (qset st "bedrooms" w).triage_fields =
      some ⟨some w, "confirmed", "user", st.now⟩ := lookup_dictSet_self _ _ _
  have hCb : critPenalty st "bedrooms" = -15 := critPenalty_missing st _ (by decide) hmiss
  have hCa : critPenalty (qset st "bedrooms" w) "bedrooms" = 0 := by
    unfold critPenalty
    rw [if_neg (by decide), hself]
    rfl
  have e1 : critPenalty (qset st "bedrooms" w) "intent" = critPenalty st "intent" := rfl
  have e2 : critPenalty (qset st "bedrooms" w) "city" = critPenalty st "city" :=
    critPenalty_eq_of_lookup st _ _ (by decide) (hlook _ (by decide))
  have e3 : critPenalty (qset st "bedrooms" w) "neighborhood" = critPenalty st "neighborhood" :=
    critPenalty_eq_of_lookup st _ _ (by decide) (hlook _ (by decide))
  have e4 : critPenalty (qset st "bedrooms" w) "property_type" = critPenalty st "property_type" :=
    critPenalty_eq_of_lookup st _ _ (by decide) (hlook _ (by decide))
  have e5 : critPenalty (qset st "bedrooms" w) "parking" = critPenalty st "parking" :=
    critPenalty_eq_of_lookup st _ _ (by decide) (hlook _ (by decide))
  have e6 : critPenalty (qset st "bedrooms" w) "budget" = critPenalty st "budget" :=
    critPenalty_eq_of_lookup st _ _ (by decide) (hlook _ (by decide))
  have e7 : critPenalty (qset st "bedrooms" w) "timeline" = critPenalty st "timeline" :=
    critPenalty_eq_of_lookup st _ _ (by decide) (hlook _ (by decide))
  have f8 := micro_ambiguous_congr st (qset st "bedrooms" w) (hlook _ (by decide))
  have f14 := micro_bonus_congr st (qset st "bedrooms" w) (hlook _ (by decide))
  have f10 := payment_congr st (qset st "bedrooms" w) rfl (hlook _ (by decide))
  have f11 : unresolved_conflict_fires (qset st "bedrooms" w) = unresolved_conflict_fires st := rfl
  have f_condo : condo_penalty_fires (qset st "bedrooms" w) = condo_penalty_fires st := rfl
  have f_binc : budget_inconsistent_fires (qset st "bedrooms" w) = budget_inconsistent_fires st := rfl
  have f_urg : timeline_missing_urgency_fires (qset st "bedrooms" w) = timeline_missing_urgency_fires st := rfl
  have f_suites : suites_bonus_fires (qset st "bedrooms" w) = suites_bonus_fires st := rfl
  have f_name : name_bonus_fires (qset st "bedrooms" w) = name_bonus_fires st := rfl
  have f_tbonus : timeline_bonus_fires (qset st "bedrooms" w) = timeline_bonus_fires st := rfl
  have f_nbc : neighborhood_without_city_fires (qset st "bedrooms" w) = neighborhood_without_city_fires st := rfl
  rw [qualityScoreRaw_expand st, qualityScoreRaw_expand (qset st "bedrooms" w)]
  simp only [e1, e2, e3, e4, e5, e6, e7, f8, f14, f10, f11, f_condo, f_binc, f_urg, f_suites, f_name, f_tbonus, f_nbc, hCb, hCa]
  linarith

theorem raw_le_qset_parking (st : SessionState) (w : Value)
    (hmiss : quality_missing st "parking" = true) :
    qualityScoreRaw st ≤ qualityScoreRaw (qset st "parking" w) := by
  have hlook : ∀ g : String, g ≠ "parking" →
      List.lookup g (qset st "parking" w).triage_fields =
        List.lookup g st.triage_fields :=
    fun g hg => lookup_dictSet_ne _ _ _ _ hg
  have hself : List.lookup "parking" (qset st "parking" w).triage_fields =
      some ⟨some w, "confirmed", "user", st.now⟩ := lookup_dictSet_self _ _ _
  have hCb : critPenalty st "parking" = -15 := critPenalty_missing st _ (by decide) hmiss
  have hCa : critPenalty (qset st "parking" w) "parking" = 0 := by
    unfold critPenalty
    rw [if_neg (by decide), hself]
    rfl
  have e1 : critPenalty (qset st "parking" w) "intent" = critPenalty st "intent" := rfl
  have e2 : critPenalty (qset st "parking" w) "city" = critPenalty st "city" :=
    critPenalty_eq_of_lookup st _ _ (by decide) (hlook _ (by decide))
  have e3 : critPenalty (qset st "parking" w) "neighborhood" = critPenalty st "neighborhood" :=
    critPenalty_eq_of_lookup st _ _ (by decide) (hlook _ (by decide))
  have e4 : critPenalty (qset st "parking" w) "property_type" = critPenalty st "property_type" :=
    critPenalty_eq_of_lookup st _ _ (by decide) (hlook _ (by decide))
  have e5 : critPenalty (qset st "parking" w) "bedrooms" = critPenalty st "bedrooms" :=
    critPenalty_eq_of_lookup st _ _ (by decide) (hlook _ (by decide))
  have e6 : critPenalty (qset st "parking" w) "budget" = critPenalty st "budget" :=
    critPenalty_eq_of_lookup st _ _ (by decide) (hlook _ (by decide))
  have e7 : critPenalty (qset st "parking" w) "timeline" = critPenalty st "timeline" :=
    critPenalty_eq_of_lookup st _ _ (by decide) (hlook _ (by decide))
  have f8 := micro_ambiguous_congr st (qset st "parking" w) (hlook _ (by decide))
  have f14 := micro_bonus_congr st (qset st "parking" w) (hlook _ (by decide))
  have f10 := payment_congr st (qset st "parking" w) rfl (hlook _ (by decide))
  have f11 : unresolved_conflict_fires (qset st "parking" w) = unresolved_conflict_fires st := rfl
  have f_condo : condo_penalty_fires (qset st "parking" w) = condo_penalty_fires st := rfl
  have f_binc : budget_inconsistent_fires (qset st "parking" w) = budget_inconsistent_fires st := rfl
  have f_urg : timeline_missing_urgency_fires (qset st "parking" w) = timeline_missing_urgency_fires st := rfl
  have f_suites : suites_bonus_fires (qset st "parking" w) = suites_bonus_fires st := rfl
  have f_name : name_bonus_fires (qset st "parking" w) = name_bonus_fires st := rfl
  have f_tbonus : timeline_bonus_fires (qset st "parking" w) = timeline_bonus_fires st := rfl
  have f_nbc : neighborhood_without_city_fires (qset st "parking" w) = neighborhood_without_city_fires st := rfl
  rw [qualityScoreRaw_expand st, qualityScoreRaw_expand (qset st "parking" w)]
  simp only [e1, e2, e3, e4, e5, e6, e7, f8, f14, f10, f11, f_condo, f_binc, f_urg, f_suites, f_name, f_tbonus, f_nbc, hCb, hCa]
  linarith

theorem raw_le_qset_budget (st : SessionState) (w : Value)
    (hmiss : quality_missing st "budget" = true)
    (hb : ¬(condo_penalty_fires (qset st "budget" w) = true ∧
      budget_inconsistent_fires (qset st "budget" w) = true)) :
    qualityScoreRaw st ≤ qualityScoreRaw (qset st "budget" w) := by
  have hlook : ∀ g : String, g ≠ "budget" →
      List.lookup g (qset st "budget" w).triage_fields =
        List.lookup g st.triage_fields :=
    fun g hg => lookup_dictSet_ne _ _ _ _ hg
  have hself : List.lookup "budget" (qset st "budget" w).triage_fields =
      some ⟨some w, "confirmed", "user", st.now⟩ := lookup_dictSet_self _ _ _
  have hCb : critPenalty st "budget" = -15 := critPenalty_missing st _ (by decide) hmiss
  have hCa : critPenalty (qset st "budget" w) "budget" = 0 := by
    unfold critPenalty
    rw [if_neg (by decide), hself]
    rfl
  have e1 : critPenalty (qset st "budget" w) "intent" = critPenalty st "intent" := rfl
  have e2 : critPenalty (qset st "budget" w) "city" = critPenalty st "city" :=
    critPenalty_eq_of_lookup st _ _ (by decide) (hlook _ (by decide))
  have e3 : critPenalty (qset st "budget" w) "neighborhood" = critPenalty st "neighborhood" :=
    critPenalty_eq_of_lookup st _ _ (by decide) (hlook _ (by decide))
  have e4 : critPenalty (qset st "budget" w) "property_type" = critPenalty st "property_type" :=
    critPenalty_eq_of_lookup st _ _ (by decide) (hlook _ (by decide))
  have e5 : critPenalty (qset st "budget" w) "bedrooms" = critPenalty st "bedrooms" :=
    critPenalty_eq_of_lookup st _ _ (by decide) (hlook _ (by decide))
  have e6 : critPenalty (qset st "budget" w) "parking" = critPenalty st "parking" :=
    critPenalty_eq_of_lookup st _ _ (by decide) (hlook _ (by decide))
  have e7 : critPenalty (qset st "budget" w) "timeline" = critPenalty st "timeline" :=
    critPenalty_eq_of_lookup st _ _ (by decide) (hlook _ (by decide))
  have f8 := micro_ambiguous_congr st (qset st "budget" w) (hlook _ (by decide))
  have f14 := micro_bonus_congr st (qset st "budget" w) (hlook _ (by decide))
  have f10 := payment_congr st (qset st "budget" w) rfl (hlook _ (by decide))
  have f11 : unresolved_conflict_fires (qset st "budget" w) = unresolved_conflict_fires st := rfl
  have f_urg : timeline_missing_urgency_fires (qset st "budget" w) = timeline_missing_urgency_fires st := rfl
  have f_suites : suites_bonus_fires (qset st "budget" w) = suites_bonus_fires st := rfl
  have f_name : name_bonus_fires (qset st "budget" w) = name_bonus_fires st := rfl
  have f_tbonus : timeline_bonus_fires (qset st "budget" w) = timeline_bonus_fires st := rfl
  have f_nbc : neighborhood_without_city_fires (qset st "budget" w) = neighborhood_without_city_fires st := rfl
  rw [qualityScoreRaw_expand st, qualityScoreRaw_expand (qset st "budget" w)]
  simp only [e1, e2, e3, e4, e5, e6, e7, f8, f14, f10, f11, f_urg, f_suites, f_name, f_tbonus, f_nbc, hCb, hCa]
  have b1 : (if condo_penalty_fires (qset st "budget" w) then (-8 : Int) else 0) +
      (if budget_inconsistent_fires (qset st "budget" w) then (-15 : Int) else 0) ≥ -15 := by
    by_cases h1 : condo_penalty_fires (qset st "budget" w) = true
    · by_cases h2 : budget_inconsistent_fires (qset st "budget" w) = true
      · exact absurd ⟨h1, h2⟩ hb
      · simp [h1, h2]
    · by_cases h2 : budget_inconsistent_fires (qset st "budget" w) = true
      · simp [h1, h2]
      · simp [h1, h2]
  have b2 : (if condo_penalty_fires st then (-8 : Int) else 0) ≤ 0 := qite_nonpos (by norm_num)
  have b3 : (if budget_inconsistent_fires st then (-15 : Int) else 0) ≤ 0 := qite_nonpos (by norm_num)
  linarith [b1, b2, b3]

theorem raw_le_qset_timeline (st : SessionState) (w : Value)
    (hmiss : quality_missing st "timeline" = true) :
    qualityScoreRaw st ≤ qualityScoreRaw (qset st "timeline" w) := by
  have hlook : ∀ g : String, g ≠ "timeline" →
      List.lookup g (qset st "timeline" w).triage_fields =
        List.lookup g st.triage_fields :=
    fun g hg => lookup_dictSet_ne _ _ _ _ hg
  have hself : List.lookup "timeline" (qset st "timeline" w).triage_fields =
      some ⟨some w, "confirmed", "user", st.now⟩ := lookup_dictSet_self _ _ _
  have hCb : critPenalty st "timeline" = -15 := critPenalty_missing st _ (by decide) hmiss
  have hCa : critPenalty (qset st "timeline" w) "timeline" = 0 := by
    unfold critPenalty
    rw [if_neg (by decide), hself]
    rfl
  have e1 : critPenalty (qset st "timeline" w) "intent" = critPenalty st "intent" := rfl
  have e2 : critPenalty (qset st "timeline" w) "city" = critPenalty st "city" :=
    critPenalty_eq_of_lookup st _ _ (by decide) (hlook _ (by decide))
  have e3 : critPenalty (qset st "timeline" w) "neighborhood" = critPenalty st "neighborhood" :=
    critPenalty_eq_of_lookup st _ _ (by decide) (hlook _ (by decide))
  have e4 : critPenalty (qset st "timeline" w) "property_type" = critPenalty st "property_type" :=
    critPenalty_eq_of_lookup st _ _ (by decide) (hlook _ (by decide))
  have e5 : critPenalty (qset st "timeline" w) "bedrooms" = critPenalty st "bedrooms" :=
    critPenalty_eq_of_lookup st _ _ (by decide) (hlook _ (by decide))
  have e6 : critPenalty (qset st "timeline" w) "parking" = critPenalty st "parking" :=
    critPenalty_eq_of_lookup st _ _ (by decide) (hlook _ (by decide))
  have e7 : critPenalty (qset st "timeline" w) "budget" = critPenalty st "budget" :=
    critPenalty_eq_of_lookup st _ _ (by decide) (hlook _ (by decide))
  have f8 := micro_ambiguous_congr st (qset st "timeline" w) (hlook _ (by decide))
  have f14 := micro_bonus_congr st (qset st "timeline" w) (hlook _ (by decide))
  have f10 := payment_congr st (qset st "timeline" w) rfl (hlook _ (by decide))
  have f11 : unresolved_conflict_fires (qset st "timeline" w) = unresolved_conflict_fires st := rfl
  have f_condo : condo_penalty_fires (qset st "timeline" w) = condo_penalty_fires st := rfl
  have f_binc : budget_inconsistent_fires (qset st "timeline" w) = budget_inconsistent_fires st := rfl
  have f_suites : suites_bonus_fires (qset st "timeline" w) = suites_bonus_fires st := rfl
  have f_name : name_bonus_fires (qset st "timeline" w) = name_bonus_fires st := rfl
  have f_nbc : neighborhood_without_city_fires (qset st "timeline" w) = neighborhood_without_city_fires st := rfl
  rw [qualityScoreRaw_expand st, qualityScoreRaw_expand (qset st "timeline" w)]
  simp only [e1, e2, e3, e4, e5, e6, e7, f8, f14, f10, f11, f_condo, f_binc, f_suites, f_name, f_nbc, hCb, hCa]
  have b1 : (-5 : Int) ≤
      (if timeline_missing_urgency_fires (qset st "timeline" w) then (-5 : Int) else 0) :=
    qite_ge (by norm_num)
  have b2 : (if timeline_missing_urgency_fires st then (-5 : Int) else 0) ≤ 0 :=
    qite_nonpos (by norm_num)
  have b3 : (0 : Int) ≤ (if timeline_bonus_fires (qset st "timeline" w) then (3 : Int) else 0) :=
    qite_nonneg (by norm_num)
  have b4 : (if timeline_bonus_fires st then (3 : Int) else 0) ≤ 3 := qite_le (by norm_num)
  linarith [b1, b2, b3, b4]

/-! Null-normalization helpers for C5: the triage entry is written with a
null value, so the quality score does not change. -/


theorem raw_le_qset_none_bedrooms (st : SessionState)
    (hmiss : quality_missing st "bedrooms" = true) :
    qualityScoreRaw st ≤ qualityScoreRaw (qset_none st "bedrooms") := by
  have hlook : ∀ g : String, g ≠ "bedrooms" →
      List.lookup g (qset_none st "bedrooms").triage_fields =
        List.lookup g st.triage_fields :=
    fun g hg => lookup_dictSet_ne _ _ _ _ hg
  have hself : List.lookup "bedrooms" (qset_none st "bedrooms").triage_fields =
      some ⟨none, "confirmed", "user", st.now⟩ := lookup_dictSet_self _ _ _
  have hCb : critPenalty st "bedrooms" = -15 := critPenalty_missing st _ (by decide) hmiss
  have hCa : critPenalty (qset_none st "bedrooms") "bedrooms" = -15 := by
    unfold critPenalty
    rw [if_neg (by decide), hself]
    rfl
  have e1 : critPenalty (qset_none st "bedrooms") "intent" = critPenalty st "intent" := rfl
  have e2 : critPenalty (qset_none st "bedrooms") "city" = critPenalty st "city" :=
    critPenalty_eq_of_lookup st _ _ (by decide) (hlook _ (by decide))
  have e3 : critPenalty (qset_none st "bedrooms") "neighborhood" = critPenalty st "neighborhood" :=
    critPenalty_eq_of_lookup st _ _ (by decide) (hlook _ (by decide))
  have e4 : critPenalty (qset_none st "bedrooms") "property_type" = critPenalty st "property_type" :=
    critPenalty_eq_of_lookup st _ _ (by decide) (hlook _ (by decide))
  have e5 : critPenalty (qset_none st "bedrooms") "parking" = critPenalty st "parking" :=
    critPenalty_eq_of_lookup st _ _ (by decide) (hlook _ (by decide))
  have e6 : critPenalty (qset_none st "bedrooms") "budget" = critPenalty st "budget" :=
    critPenalty_eq_of_lookup st _ _ (by decide) (hlook _ (by decide))
  have e7 : critPenalty (qset_none st "bedrooms") "timeline" = critPenalty st "timeline" :=
    critPenalty_eq_of_lookup st _ _ (by decide) (hlook _ (by decide))
  have f8 := micro_ambiguous_congr st (qset_none st "bedrooms") (hlook _ (by decide))
  have f14 := micro_bonus_congr st (qset_none st "bedrooms") (hlook _ (by decide))
  have f10 := payment_congr st (qset_none st "bedrooms") rfl (hlook _ (by decide))
  have f11 : unresolved_conflict_fires (qset_none st "bedrooms") = unresolved_conflict_fires st := rfl
  have f_condo : condo_penalty_fires (qset_none st "bedrooms") = condo_penalty_fires st := rfl
  have f_binc : budget_inconsistent_fires (qset_none st "bedrooms") = budget_inconsistent_fires st := rfl
  have f_urg : timeline_missing_urgency_fires (qset_none st "bedrooms") = timeline_missing_urgency_fires st := rfl
  have f_suites : suites_bonus_fires (qset_none st "bedrooms") = suites_bonus_fires st := rfl
  have f_name : name_bonus_fires (qset_none st "bedrooms") = name_bonus_fires st := rfl
  have f_tbonus : timeline_bonus_fires (qset_none st "bedrooms") = timeline_bonus_fires st := rfl
  have f_nbc : neighborhood_without_city_fires (qset_none st "bedrooms") = neighborhood_without_city_fires st := rfl
  rw [qualityScoreRaw_expand st, qualityScoreRaw_expand (qset_none st "bedrooms")]
  simp only [e1, e2, e3, e4, e5, e6, e7, f8, f14, f10, f11, f_condo, f_binc, f_urg, f_suites, f_name, f_tbonus, f_nbc, hCb, hCa]
  linarith

theorem raw_le_qset_none_parking (st : SessionState)
    (hmiss : quality_missing st "parking" = true) :
    qualityScoreRaw st ≤ qualityScoreRaw (qset_none st "parking") := by
  have hlook : ∀ g : String, g ≠ "parking" →
      List.lookup g (qset_none st "parking").triage_fields =
        List.lookup g st.triage_fields :=
    fun g hg => lookup_dictSet_ne _ _ _ _ hg
  have hself : List.lookup "parking" (qset_none st "parking").triage_fields =
      some ⟨none, "confirmed", "user", st.now⟩ := lookup_dictSet_self _ _ _
  have hCb : critPenalty st "parking" = -15 := critPenalty_missing st _ (by decide) hmiss
  have hCa : critPenalty (qset_none st "parking") "parking" = -15 := by
    unfold critPenalty
    rw [if_neg (by decide), hself]
    rfl
  have e1 : critPenalty (qset_none st "parking") "intent" = critPenalty st "intent" := rfl
  have e2 : critPenalty (qset_none st "parking") "city" = critPenalty st "city" :=
    critPenalty_eq_of_lookup st _ _ (by decide) (hlook _ (by decide))
  have e3 : critPenalty (qset_none st "parking") "neighborhood" = critPenalty st "neighborhood" :=
    critPenalty_eq_of_lookup st _ _ (by decide) (hlook _ (by decide))
  have e4 : critPenalty (qset_none st "parking") "property_type" = critPenalty st "property_type" :=
    critPenalty_eq_of_lookup st _ _ (by decide) (hlook _ (by decide))
  have e5 : critPenalty (qset_none st "parking") "bedrooms" = critPenalty st "bedrooms" :=
    critPenalty_eq_of_lookup st _ _ (by decide) (hlook _ (by decide))
  have e6 : critPenalty (qset_none st "parking") "budget" = critPenalty st "budget" :=
    critPenalty_eq_of_lookup st _ _ (by decide) (hlook _ (by decide))
  have e7 : critPenalty (qset_none st "parking") "timeline" = critPenalty st "timeline" :=
    critPenalty_eq_of_lookup st _ _ (by decide) (hlook _ (by decide))
  have f8 := micro_ambiguous_congr st (qset_none st "parking") (hlook _ (by decide))
  have f14 := micro_bonus_congr st (qset_none st "parking") (hlook _ (by decide))
  have f10 := payment_congr st (qset_none st "parking") rfl (hlook _ (by decide))
  have f11 : unresolved_conflict_fires (qset_none st "parking") = unresolved_conflict_fires st := rfl
  have f_condo : condo_penalty_fires (qset_none st "parking") = condo_penalty_fires st := rfl
  have f_binc : budget_inconsistent_fires (qset_none st "parking") = budget_inconsistent_fires st := rfl
  have f_urg : timeline_missing_urgency_fires (qset_none st "parking") = timeline_missing_urgency_fires st := rfl
  have f_suites : suites_bonus_fires (qset_none st "parking") = suites_bonus_fires st := rfl
  have f_name : name_bonus_fires (qset_none st "parking") = name_bonus_fires st := rfl
  have f_tbonus : timeline_bonus_fires (qset_none st "parking") = timeline_bonus_fires st := rfl
  have f_nbc : neighborhood_without_city_fires (qset_none st "parking") = neighborhood_without_city_fires st := rfl
  rw [qualityScoreRaw_expand st, qualityScoreRaw_expand (qset_none st "parking")]
  simp only [e1, e2, e3, e4, e5, e6, e7, f8, f14, f10, f11, f_condo, f_binc, f_urg, f_suites, f_name, f_tbonus, f_nbc, hCb, hCa]
  linarith

theorem raw_le_qset_none_budget (st : SessionState)
    (hmiss : quality_missing st "budget" = true) :
    qualityScoreRaw st ≤ qualityScoreRaw (qset_none st "budget") := by
  have hlook : ∀ g : String, g ≠ "budget" →
      List.lookup g (qset_none st "budget").triage_fields =
        List.lookup g st.triage_fields :=
    fun g hg => lookup_dictSet_ne _ _ _ _ hg
  have hself : List.lookup "budget" (qset_none st "budget").triage_fields =
      some ⟨none, "confirmed", "user", st.now⟩ := lookup_dictSet_self _ _ _
  have hCb : critPenalty st "budget" = -15 := critPenalty_missing st _ (by decide) hmiss
  have hCa : critPenalty (qset_none st "budget") "budget" = -15 := by
    unfold critPenalty
    rw [if_neg (by decide), hself]
    rfl
  have e1 : critPenalty (qset_none st "budget") "intent" = critPenalty st "intent" := rfl
  have e2 : critPenalty (qset_none st "budget") "city" = critPenalty st "city" :=
    critPenalty_eq_of_lookup st _ _ (by decide) (hlook _ (by decide))
  have e3 : critPenalty (qset_none st "budget") "neighborhood" = critPenalty st "neighborhood" :=
    critPenalty_eq_of_lookup st _ _ (by decide) (hlook _ (by decide))
  have e4 : critPenalty (qset_none st "budget") "property_type" = critPenalty st "property_type" :=
    critPenalty_eq_of_lookup st _ _ (by decide) (hlook _ (by decide))
  have e5 : critPenalty (qset_none st "budget") "bedrooms" = critPenalty st "bedrooms" :=
    critPenalty_eq_of_lookup st _ _ (by decide) (hlook _ (by decide))
  have e6 : critPenalty (qset_none st "budget") "parking" = critPenalty st "parking" :=
    critPenalty_eq_of_lookup st _ _ (by decide) (hlook _ (by decide))
  have e7 : critPenalty (qset_none st "budget") "timeline" = critPenalty st "timeline" :=
    critPenalty_eq_of_lookup st _ _ (by decide) (hlook _ (by decide))
  have f8 := micro_ambiguous_congr st (qset_none st "budget") (hlook _ (by decide))
  have f14 := micro_bonus_congr st (qset_none st "budget") (hlook _ (by decide))
  have f10 := payment_congr st (qset_none st "budget") rfl (hlook _ (by decide))
  have f11 : unresolved_conflict_fires (qset_none st "budget") = unresolved_conflict_fires st := rfl
  have f_condo : condo_penalty_fires (qset_none st "budget") = condo_penalty_fires st := rfl
  have f_binc : budget_inconsistent_fires (qset_none st "budget") = budget_inconsistent_fires st := rfl
  have f_urg : timeline_missing_urgency_fires (qset_none st "budget") = timeline_missing_urgency_fires st := rfl
  have f_suites : suites_bonus_fires (qset_none st "budget") = suites_bonus_fires st := rfl
  have f_name : name_bonus_fires (qset_none st "budget") = name_bonus_fires st := rfl
  have f_tbonus : timeline_bonus_fires (qset_none st "budget") = timeline_bonus_fires st := rfl
  have f_nbc : neighborhood_without_city_fires (qset_none st "budget") = neighborhood_without_city_fires st := rfl
  rw [qualityScoreRaw_expand st, qualityScoreRaw_expand (qset_none st "budget")]
  simp only [e1, e2, e3, e4, e5, e6, e7, f8, f14, f10, f11, f_condo, f_binc, f_urg, f_suites, f_name, f_tbonus, f_nbc, hCb, hCa]
  linarith


/-- The intent case of C5: setting the intent attribute of a state whose
intent is falsy can only raise the raw quality score. -/
theorem raw_le_intent (st : SessionState) (v : Value)
    (hmiss : quality_missing st "intent" = true) :
    qualityScoreRaw st ≤ qualityScoreRaw { st with intent := some v } := by
  have hI : truthy st.intent = false := by
    unfold quality_missing at hmiss
    rw [if_pos rfl] at hmiss
    simpa using hmiss
  have hCb : critPenalty st "intent" = -15 := by
    unfold critPenalty
    rw [if_pos rfl, hI]
    rfl
  have hpayB : payment_missing_fires st = false := by
    unfold payment_missing_fires
    by_cases hc : st.intent = some (Value.str "comprar")
    · rw [hc] at hI
      exact absurd hI (by decide)
    · simp [hc]
  have hA : ∀ g, g ≠ "intent" →
      critPenalty { st with intent := some v } g = critPenalty st g := by
    intro g hg
    unfold critPenalty
    rw [if_neg hg, if_neg hg]
  have e1 := hA "city" (by decide)
  have e2 := hA "neighborhood" (by decide)
  have e3 := hA "property_type" (by decide)
  have e4 := hA "bedrooms" (by decide)
  have e5 := hA "parking" (by decide)
  have e6 := hA "budget" (by decide)
  have e7 := hA "timeline" (by decide)
  have f8 : micro_ambiguous_fires { st with intent := some v } =
      micro_ambiguous_fires st := rfl
  have f14 : micro_bonus_fires { st with intent := some v } =
      micro_bonus_fires st := rfl
  have f11 : unresolved_conflict_fires { st with intent := some v } =
      unresolved_conflict_fires st := rfl
  have f_condo : condo_penalty_fires { st with intent := some v } =
      condo_penalty_fires st := rfl
  have f_binc : budget_inconsistent_fires { st with intent := some v } =
      budget_inconsistent_fires st := rfl
  have f_urg : timeline_missing_urgency_fires { st with intent := some v } =
      timeline_missing_urgency_fires st := rfl
  have f_suites : suites_bonus_fires { st with intent := some v } =
      suites_bonus_fires st := rfl
  have f_name : name_bonus_fires { st with intent := some v } =
      name_bonus_fires st := rfl
  have f_tbonus : timeline_bonus_fires { st with intent := some v } =
      timeline_bonus_fires st := rfl
  have f_nbc : neighborhood_without_city_fires { st with intent := some v } =
      neighborhood_without_city_fires st := rfl
  rw [qualityScoreRaw_expand st, qualityScoreRaw_expand { st with intent := some v }]
  simp only [e1, e2, e3, e4, e5, e6, e7, f8, f14, f11, f_condo, f_binc, f_urg,
    f_suites, f_name, f_tbonus, f_nbc, hCb, hpayB]
  by_cases hv : truthy (some v) = true
  · have hCa : critPenalty { st with intent := some v } "intent" = 0 := by
      unfold critPenalty
      rw [if_pos rfl]
      show (if truthy (some v) = true then (0 : Int) else -15) = 0
      rw [if_pos hv]
    rw [hCa]
    have b1 : (-5 : Int) ≤
        (if payment_missing_fires { st with intent := some v } then (-5 : Int) else 0) :=
      qite_ge (by norm_num)
    simp only [Bool.false_eq_true, if_false]
    linarith [b1]
  · have hCa : critPenalty { st with intent := some v } "intent" = -15 := by
      unfold critPenalty
      rw [if_pos rfl]
      show (if truthy (some v) = true then (0 : Int) else -15) = -15
      rw [if_neg hv]
    have hpayA : payment_missing_fires { st with intent := some v } = false := by
      unfold payment_missing_fires
      by_cases hc : (some v : Option Value) = some (Value.str "comprar")
      · obtain rfl : v = Value.str "comprar" := Option.some_inj.mp hc
        exact absurd (by decide : truthy (some (Value.str "comprar")) = true) hv
      · show (decide ((some v : Option Value) = some (Value.str "comprar")) && _) = false
        simp [hc]
    rw [hCa, hpayA]

/-- C5 amended: resolving a previously-missing critical field with a confirmed
value never decreases the quality score, except that a newly set budget may
decrease it when it simultaneously triggers both the
high-budget-without-condo-cap penalty and the budget-min-exceeds-max penalty
in the resulting state. -/
theorem monotonic_quality_amended (st : SessionState) (f : String) (v : Value)
    (hf : f ∈ CRITICAL_ORDER)
    (hmiss : quality_missing st f = true)
    (hbudget : f = "budget" →
      ¬(condo_penalty_fires (resolve_critical st f v) = true ∧
        budget_inconsistent_fires (resolve_critical st f v) = true)) :
    (compute_quality_score st).score ≤
      (compute_quality_score (resolve_critical st f v)).score := by
  have hclamp : ∀ s : SessionState,
      (compute_quality_score s).score = max 0 (min 100 (qualityScoreRaw s)) :=
    fun s => rfl
  rw [hclamp st, hclamp (resolve_critical st f v)]
  apply clamp_mono
  simp only [CRITICAL_ORDER, List.mem_cons, List.mem_singleton,
    List.not_mem_nil, or_false] at hf
  rcases hf with rfl | rfl | rfl | rfl | rfl | rfl | rfl | rfl
  · have hsc : resolve_critical st "intent" v = { st with intent := some v } := rfl
    rw [hsc]
    exact raw_le_intent st v hmiss
  · have hsc : resolve_critical st "city" v = qset st "city" v := rfl
    rw [hsc]
    exact raw_le_qset_city st v hmiss
  · have hsc : resolve_critical st "neighborhood" v = qset st "neighborhood" v := rfl
    rw [hsc]
    exact raw_le_qset_neighborhood st v hmiss
  · have hsc : resolve_critical st "property_type" v = qset st "property_type" v := rfl
    rw [hsc]
    exact raw_le_qset_property_type st v hmiss
  · rcases hn : _normalize_numeric (some v) with _ | n
    · have h0 : normalizeValueForKey "bedrooms" (some v) = none := by
        show (_normalize_numeric (some v)).map Value.int = none
        rw [hn]
        rfl
      have hsc : resolve_critical st "bedrooms" v = qset_none st "bedrooms" := by
        show (let value := normalizeValueForKey "bedrooms" (some v)
              let st2 :=
                if criteriaHasAttr "bedrooms" ∧ value ≠ none then
                  { st with
                      criteria := criteriaSet st.criteria "bedrooms" value
                      criteria_status := dictSet st.criteria_status "bedrooms" "confirmed" }
                else st
              { st2 with triage_fields :=
                  dictSet st2.triage_fields "bedrooms" ⟨value, "confirmed", "user", st2.now⟩ }) = _
        simp only [h0]
        rw [if_neg (fun hx => hx.2 rfl)]
        rfl
      rw [hsc]
      exact raw_le_qset_none_bedrooms st hmiss
    · have h0 : normalizeValueForKey "bedrooms" (some v) = some (Value.int n) := by
        show (_normalize_numeric (some v)).map Value.int = _
        rw [hn]
        rfl
      have hsc : resolve_critical st "bedrooms" v = qset st "bedrooms" (Value.int n) := by
        show (let value := normalizeValueForKey "bedrooms" (some v)
              let st2 :=
                if criteriaHasAttr "bedrooms" ∧ value ≠ none then
                  { st with
                      criteria := criteriaSet st.criteria "bedrooms" value
                      criteria_status := dictSet st.criteria_status "bedrooms" "confirmed" }
                else st
              { st2 with triage_fields :=
                  dictSet st2.triage_fields "bedrooms" ⟨value, "confirmed", "user", st2.now⟩ }) = _
        simp only [h0]
        rw [if_pos ⟨rfl, fun hx => Option.noConfusion hx⟩]
        rfl
      rw [hsc]
      exact raw_le_qset_bedrooms st (Value.int n) hmiss
  · rcases hn : _normalize_numeric (some v) with _ | n
    · have h0 : normalizeValueForKey "parking" (some v) = none := by
        show (_normalize_numeric (some v)).map Value.int = none
        rw [hn]
        rfl
      have hsc : resolve_critical st "parking" v = qset_none st "parking" := by
        show (let value := normalizeValueForKey "parking" (some v)
              let st2 :=
                if criteriaHasAttr "parking" ∧ value ≠ none then
                  { st with
                      criteria := criteriaSet st.criteria "parking" value
                      criteria_status := dictSet st.criteria_status "parking" "confirmed" }
                else st
              { st2 with triage_fields :=
                  dictSet st2.triage_fields "parking" ⟨value, "confirmed", "user", st2.now⟩ }) = _
        simp only [h0]
        rw [if_neg (fun hx => hx.2 rfl)]
        rfl
      rw [hsc]
      exact raw_le_qset_none_parking st hmiss
    · have h0 : normalizeValueForKey "parking" (some v) = some (Value.int n) := by
        show (_normalize_numeric (some v)).map Value.int = _
        rw [hn]
        rfl
      have hsc : resolve_critical st "parking" v = qset st "parking" (Value.int n) := by
        show (let value := normalizeValueForKey "parking" (some v)
              let st2 :=
                if criteriaHasAttr "parking" ∧ value ≠ none then
                  { st with
                      criteria := criteriaSet st.criteria "parking" value
                      criteria_status := dictSet st.criteria_status "parking" "confirmed" }
                else st
              { st2 with triage_fields :=
                  dictSet st2.triage_fields "parking" ⟨value, "confirmed", "user", st2.now⟩ }) = _
        simp only [h0]
        rw [if_pos ⟨rfl, fun hx => Option.noConfusion hx⟩]
        rfl
      rw [hsc]
      exact raw_le_qset_parking st (Value.int n) hmiss
  · rcases hn : _normalize_numeric (some v) with _ | n
    · have h0 : normalizeValueForKey "budget" (some v) = none := by
        show (_normalize_numeric (some v)).map Value.int = none
        rw [hn]
        rfl
      have hsc : resolve_critical st "budget" v = qset_none st "budget" := by
        show (let value := normalizeValueForKey "budget" (some v)
              let st2 :=
                if criteriaHasAttr "budget" ∧ value ≠ none then
                  { st with
                      criteria := criteriaSet st.criteria "budget" value
                      criteria_status := dictSet st.criteria_status "budget" "confirmed" }
                else st
              { st2 with triage_fields :=
                  dictSet st2.triage_fields "budget" ⟨value, "confirmed", "user", st2.now⟩ }) = _
        simp only [h0]
        rw [if_neg (fun hx => hx.2 rfl)]
        rfl
      rw [hsc]
      exact raw_le_qset_none_budget st hmiss
    · have h0 : normalizeValueForKey "budget" (some v) = some (Value.int n) := by
        show (_normalize_numeric (some v)).map Value.int = _
        rw [hn]
        rfl
      have hsc : resolve_critical st "budget" v = qset st "budget" (Value.int n) := by
        show (let value := normalizeValueForKey "budget" (some v)
              let st2 :=
                if criteriaHasAttr "budget" ∧ value ≠ none then
                  { st with
                      criteria := criteriaSet st.criteria "budget" value
                      criteria_status := dictSet st.criteria_status "budget" "confirmed" }
                else st
              { st2 with triage_fields :=
                  dictSet st2.triage_fields "budget" ⟨value, "confirmed", "user", st2.now⟩ }) = _
        simp only [h0]
        rw [if_pos ⟨rfl, fun hx => Option.noConfusion hx⟩]
        rfl
      have hb := hbudget rfl
      rw [hsc] at hb
      rw [hsc]
      exact raw_le_qset_budget st (Value.int n) hmiss hb
  · rcases ht : _normalize_timeline (some v) with _ | t
    · have h0 : normalizeValueForKey "timeline" (some v) = some v := by
        show (match _normalize_timeline (some v) with
              | some t => some (Value.str t)
              | none => some v) = _
        rw [ht]
      have hsc : resolve_critical st "timeline" v = qset st "timeline" v := by
        show (let value := normalizeValueForKey "timeline" (some v)
              let st2 :=
                if criteriaHasAttr "timeline" ∧ value ≠ none then
                  { st with
                      criteria := criteriaSet st.criteria "timeline" value
                      criteria_status := dictSet st.criteria_status "timeline" "confirmed" }
                else st
              { st2 with triage_fields :=
                  dictSet st2.triage_fields "timeline" ⟨value, "confirmed", "user", st2.now⟩ }) = _
        simp only [h0]
        rw [if_pos ⟨rfl, fun hx => Option.noConfusion hx⟩]
        rfl
      rw [hsc]
      exact raw_le_qset_timeline st v hmiss
    · have h0 : normalizeValueForKey "timeline" (some v) = some (Value.str t) := by
        show (match _normalize_timeline (some v) with
              | some t => some (Value.str t)
              | none => some v) = _
        rw [ht]
      have hsc : resolve_critical st "timeline" v = qset st "timeline" (Value.str t) := by
        show (let value := normalizeValueForKey "timeline" (some v)
              let st2 :=
                if criteriaHasAttr "timeline" ∧ value ≠ none then
                  { st with
                      criteria := criteriaSet st.criteria "timeline" value
                      criteria_status := dictSet st.criteria_status "timeline" "confirmed" }
                else st
              { st2 with triage_fields :=
                  dictSet st2.triage_fields "timeline" ⟨value, "confirmed", "user", st2.now⟩ }) = _
        simp only [h0]
        rw [if_pos ⟨rfl, fun hx => Option.noConfusion hx⟩]
        rfl
      rw [hsc]
      exact raw_le_qset_timeline st (Value.str t) hmiss

/-- A session already carrying the six non-budget triage criteria (confirmed),
a budget_min of 2,000,000 and no budget: quality score 88. Setting the
previously-missing budget to 600,000 triggers both the
high-budget-without-condo-cap penalty and the budget-min-above-max penalty. -/
def c5_before : SessionState :=
  { session_id := "q5"
    intent := some (Value.str "alugar")
    criteria := { city := some (Value.str "Joao Pessoa")
                  neighborhood := some (Value.str "Manaira")
                  property_type := some (Value.str "apartamento")
                  bedrooms := some (Value.int 3)
                  parking := some (Value.int 1)
                  timeline := some (Value.str "30d")
                  budget_min := some (Value.int 2000000) }
    triage_fields := [("city", ⟨some (Value.str "Joao Pessoa"), "confirmed", "user", 0⟩), ("neighborhood", ⟨some (Value.str "Manaira"), "confirmed", "user", 0⟩), ("property_type", ⟨some (Value.str "apartamento"), "confirmed", "user", 0⟩), ("bedrooms", ⟨some (Value.int 3), "confirmed", "user", 0⟩), ("parking", ⟨some (Value.int 1), "confirmed", "user", 0⟩), ("timeline", ⟨some (Value.str "30d"), "confirmed", "user", 0⟩)] }

/-- C5 counterexample: budget is a critical field and missing in c5_before,
yet resolving it to the confirmed value 600000 drops the quality score from 88
to 80 — the missing-field penalty (-10) is outweighed by the two newly fired
budget penalties (-10 and -8). -/
theorem monotonic_quality_counterexample :
    "budget" ∈ CRITICAL_ORDER ∧
    quality_missing c5_before "budget" = true ∧
    (compute_quality_score c5_before).score = 88 ∧
    (compute_quality_score (resolve_critical c5_before "budget" (Value.int 600000))).score = 80 ∧
    (compute_quality_score (resolve_critical c5_before "budget" (Value.int 600000))).score <
      (compute_quality_score c5_before).score :=
  ⟨by decide, rfl, rfl, rfl, by decide⟩

/-- Witness for the amended monotonicity theorem: filling the missing city of
a fresh session does not decrease the quality score (the budget side condition
is vacuous). -/
theorem monotonic_quality_amended_witness :
    ("city" ∈ CRITICAL_ORDER ∧
      quality_missing (freshState "w5") "city" = true) ∧
    (compute_quality_score (freshState "w5")).score ≤
      (compute_quality_score
        (resolve_critical (freshState "w5") "city" (Value.str "Joao Pessoa"))).score :=
  ⟨⟨by decide, rfl⟩,
    monotonic_quality_amended (freshState "w5") "city" (Value.str "Joao Pessoa")
      (by decide) rfl (fun h => absurd h (by decide))⟩
